import Mathlib

/-!
Verification of the CRM synchronization subsystem of the hubspot_API
repository, shallowly embedded in Lean 4.

Sources embedded (paths relative to the repository root):
  app/integrations/credentials/crm_credentials_store.py
  app/integrations/mapping/crm_field_mappings_repository.py
  app/integrations/mapping/crm_field_mapping_engine.py
  app/integrations/mapping/systems/(hubspot|salesforce|sap_b1)_default_mapping.py
  app/integrations/mapping/crm_account_links_repository.py (and the
    structurally identical contact/opportunity link repositories)
  app/integrations/sync/crm_sync_service.py
  app/integrations/sync/crm_sync_listener.py
  app/integrations/webhooks/hubspot_company_webhook_processor.py
  app/integrations/webhooks/webhook_idempotency_repository.py
  app/integrations/crm/crm_types.py

Modelling conventions:
  * Python datetimes are integers (milliseconds since the epoch); only
    their ordering is used by the embedded code.
  * A Python value that may be None is an `Option`; `none` is None.
  * SQL tables are Lean lists of row structures; the INSERT/UPDATE/SELECT
    statements of the source are translated into list operations that
    implement exactly the keyed upsert / filtered lookup the SQL states.
  * Raising an exception is modelled with `Except`: `.error` carries the
    exception (and, where the caller can observe partially committed
    database writes, the store state at the moment of the raise).
  * A Python dict is an insertion-ordered association list without
    duplicate keys; writing an existing key updates it in place, writing
    a new key appends.  `dictInsert` below implements exactly that.
-/

/-- Python str.lower, applied per character (String.toLower itself is
defined through functions the kernel cannot unfold). -/
def pyLower (s : String) : String := ⟨s.data.map Char.toLower⟩

/-- Lexicographic comparison of character lists, the order Python strings
and SQL text columns sort by. -/
def charListLe : List Char → List Char → Bool
  | [], _ => true
  | _ :: _, [] => false
  | a :: as, b :: bs => if a = b then charListLe as bs else decide (a < b)

/-- String comparison used when modelling ORDER BY over a text column. -/
def strLeB (a b : String) : Bool := charListLe a.data b.data

/-- View of an Except value as a sum, to derive decidable equality. -/
def exceptToSum {e a : Type} : Except e a → Sum e a
  | .error x => .inl x
  | .ok x => .inr x

instance {e a : Type} [DecidableEq e] [DecidableEq a] :
    DecidableEq (Except e a) :=
  fun x y => decidable_of_iff (exceptToSum x = exceptToSum y)
    (by cases x <;> cases y <;> simp [exceptToSum])

/-- A Python runtime value as far as the embedded code inspects one:
strings, integers (also standing in for numeric columns whose exact
numeric type the embedded code never relies on), and an opaque marker for
dict-valued attributes (no embedded code path looks inside such a value).
-/
inductive Value where
  | s (v : String)
  | i (v : Int)
  | dictV
deriving DecidableEq, Repr

/-- A Python attribute value that may be None: `none` is Python None. -/
abbrev PyVal := Option Value

/-- A Python dict: insertion-ordered association list, no duplicate keys. -/
abbrev Dict (α β : Type) := List (α × β)

/-- Python dict assignment `d[k] = v`: if the key is present it is updated
in place (keeping its position), otherwise the pair is appended at the
end.  A dict never holds duplicate keys, so replacing the first occurrence
is the same as replacing every occurrence. -/
def dictInsert {α β : Type} [DecidableEq α] : Dict α β → α → β → Dict α β
  | [], k, v => [(k, v)]
  | p :: d, k, v => if p.1 = k then (k, v) :: d else p :: dictInsert d k v

/-- Python dict lookup `d.get(k)`. -/
def dictGet {α β : Type} [DecidableEq α] : Dict α β → α → Option β
  | [], _ => none
  | p :: d, k => if p.1 = k then some p.2 else dictGet d k

/-- Python `d.update(other)`: assign every pair of `other`, in order. -/
def dictUpdate {α β : Type} [DecidableEq α] (d other : Dict α β) : Dict α β :=
  other.foldl (fun acc p => dictInsert acc p.1 p.2) d

/-- The key list of a dict. -/
def dictKeys {α β : Type} (d : Dict α β) : List α := d.map (fun p => p.1)

/-- Well-formedness of a dict: no duplicate keys. -/
def DictWF {α β : Type} (d : Dict α β) : Prop := (dictKeys d).Nodup

instance {α β : Type} [DecidableEq α] (d : Dict α β) : Decidable (DictWF d) := by
  unfold DictWF; infer_instance

theorem dictGet_insert {α β : Type} [DecidableEq α]
    (d : Dict α β) (k k' : α) (v : β) :
    dictGet (dictInsert d k v) k' = if k' = k then some v else dictGet d k' := by
  induction d with
  | nil =>
    simp only [dictInsert, dictGet]
    by_cases h : k = k'
    · rw [if_pos h, if_pos h.symm]
    · rw [if_neg h, if_neg (fun hh => h hh.symm)]
  | cons p d ih =>
    simp only [dictInsert]
    by_cases hp : p.1 = k
    · rw [if_pos hp]
      simp only [dictGet]
      by_cases h : k' = k
      · rw [if_pos h.symm, if_pos h]
      · rw [if_neg (fun hh => h hh.symm), if_neg h,
          if_neg (fun hh : p.1 = k' => h (hh ▸ hp))]
    · rw [if_neg hp]
      simp only [dictGet, ih]
      by_cases hpk : p.1 = k'
      · have hk : ¬ k' = k := fun hh => hp (hh ▸ hpk)
        rw [if_pos hpk, if_neg hk, if_pos hpk]
      · rw [if_neg hpk]
        by_cases h : k' = k
        · rw [if_pos h, if_pos h]
        · rw [if_neg h, if_neg h, if_neg hpk]

theorem dictKeys_insert {α β : Type} [DecidableEq α]
    (d : Dict α β) (k : α) (v : β) :
    dictKeys (dictInsert d k v) =
      if k ∈ dictKeys d then dictKeys d else dictKeys d ++ [k] := by
  induction d with
  | nil => simp [dictInsert, dictKeys]
  | cons p d ih =>
    by_cases hp : p.1 = k
    · simp [dictInsert, dictKeys, hp]
    · by_cases hm : k ∈ dictKeys d
      · have hcond : k ∈ dictKeys (p :: d) := by
          simp only [dictKeys, List.map_cons, List.mem_cons]
          exact Or.inr (by simpa [dictKeys] using hm)
        rw [if_pos hcond]
        rw [if_pos hm] at ih
        simp only [dictInsert, if_neg hp, dictKeys, List.map_cons]
        simpa [dictKeys] using ih
      · have hcond : ¬ k ∈ dictKeys (p :: d) := by
          simp only [dictKeys, List.map_cons, List.mem_cons]
          rintro (h1 | h2)
          · exact hp h1.symm
          · exact hm (by simpa [dictKeys] using h2)
        rw [if_neg hcond]
        rw [if_neg hm] at ih
        simp only [dictInsert, if_neg hp, dictKeys, List.map_cons]
        simpa [dictKeys] using ih

theorem DictWF_insert {α β : Type} [DecidableEq α]
    (d : Dict α β) (k : α) (v : β) (h : DictWF d) : DictWF (dictInsert d k v) := by
  unfold DictWF
  rw [dictKeys_insert]
  by_cases hm : k ∈ dictKeys d
  · rw [if_pos hm]; exact h
  · rw [if_neg hm]
    rw [List.nodup_append]
    exact ⟨h, by simp, by intro a ha hb; simp at hb; subst hb; exact hm ha⟩

/-- In a well-formed dict an entry `(k, v)` is found by looking up `k`. -/
theorem dictGet_eq_some_of_mem {α β : Type} [DecidableEq α]
    (d : Dict α β) (k : α) (v : β) (hwf : DictWF d) (hm : (k, v) ∈ d) :
    dictGet d k = some v := by
  induction d with
  | nil => simp at hm
  | cons p d ih =>
    unfold DictWF dictKeys at hwf
    simp only [List.map_cons, List.nodup_cons] at hwf
    rcases List.mem_cons.mp hm with hm1 | hm2
    · simp [dictGet, ← hm1]
    · by_cases hp : p.1 = k
      · exfalso
        exact hwf.1 (hp ▸ List.mem_map_of_mem (fun q => q.1) hm2)
      · simp only [dictGet, if_neg hp]
        exact ih hwf.2 hm2

/-- Appending lists, searched left to right. -/
theorem listFind?_append {α : Type} (l₁ l₂ : List α) (p : α → Bool) :
    (l₁ ++ l₂).find? p =
      match l₁.find? p with
      | some x => some x
      | none => l₂.find? p := by
  induction l₁ with
  | nil => simp
  | cons x xs ih =>
    by_cases hx : p x
    · simp [List.find?_cons_of_pos _ hx]
    · rw [List.cons_append, List.find?_cons_of_neg _ hx,
        List.find?_cons_of_neg _ hx, ih]

/-- Head satisfies the predicate: the search stops at the head. -/
theorem findCons_pos {α : Type} (p : α → Bool) (a : α) (l : List α)
    (h : p a = true) : (a :: l).find? p = some a :=
  List.find?_cons_of_pos l h

/-- Head fails the predicate: the search continues in the tail. -/
theorem findCons_neg {α : Type} (p : α → Bool) (a : α) (l : List α)
    (h : p a = false) : (a :: l).find? p = l.find? p :=
  List.find?_cons_of_neg l (by simp [h])

/-- A fold of guarded dict assignments is determined by the last list
element that passes the guard and carries the key. -/
theorem dictGet_foldl_insert {α K V : Type} [DecidableEq K]
    (l : List α) (d : Dict K V) (key : α → K) (val : α → V) (P : α → Bool) (k : K) :
    dictGet (l.foldl (fun acc x => if P x then dictInsert acc (key x) (val x) else acc) d) k =
      match l.reverse.find? (fun x => P x && decide (key x = k)) with
      | some x => some (val x)
      | none => dictGet d k := by
  induction l generalizing d with
  | nil => simp
  | cons x xs ih =>
    simp only [List.foldl_cons, List.reverse_cons]
    rw [ih, listFind?_append]
    cases hfind : xs.reverse.find? (fun y => P y && decide (key y = k)) with
    | some y => rfl
    | none =>
      dsimp only
      by_cases hP : P x
      · by_cases hk : key x = k
        · rw [findCons_pos (fun y => P y && decide (key y = k)) x []
            (by simp [hP, hk])]
          simp only [if_pos hP, dictGet_insert, if_pos hk.symm]
        · rw [findCons_neg (fun y => P y && decide (key y = k)) x []
            (by simp [hk])]
          simp only [List.find?_nil, if_pos hP, dictGet_insert,
            if_neg (fun hh : k = key x => hk hh.symm)]
      · rw [findCons_neg (fun y => P y && decide (key y = k)) x []
          (by simp [hP])]
        simp only [List.find?_nil, if_neg hP]

/-- Folding guarded dict assignments preserves well-formedness. -/
theorem DictWF_foldl_insert {α K V : Type} [DecidableEq K]
    (l : List α) (d : Dict K V) (key : α → K) (val : α → V) (P : α → Bool)
    (h : DictWF d) :
    DictWF (l.foldl (fun acc x => if P x then dictInsert acc (key x) (val x) else acc) d) := by
  induction l generalizing d with
  | nil => exact h
  | cons x xs ih =>
    simp only [List.foldl_cons]
    by_cases hP : P x
    · simp only [if_pos hP]
      exact ih _ (DictWF_insert _ _ _ h)
    · simp only [if_neg hP]
      exact ih _ h

/-- If exactly one element of a list satisfies the predicate, `find?`
returns it. -/
theorem listFind?_of_unique {α : Type} (l : List α) (p : α → Bool) (r : α)
    (hmem : r ∈ l) (hp : p r = true) (huniq : ∀ x ∈ l, p x = true → x = r) :
    l.find? p = some r := by
  induction l with
  | nil => simp at hmem
  | cons x xs ih =>
    by_cases hx : p x
    · have hxr : x = r := huniq x (List.mem_cons_self x xs) hx
      rw [List.find?_cons_of_pos _ hx, hxr]
    · rw [List.find?_cons_of_neg _ hx]
      have hmem' : r ∈ xs := by
        rcases List.mem_cons.mp hmem with h1 | h2
        · exact absurd (h1 ▸ hp) (by simpa using hx)
        · exact h2
      exact ih hmem' (fun x hx' hp' => huniq x (List.mem_cons_of_mem _ hx') hp')

/-- Strengthening a successful search: if the first element satisfying `q`
also satisfies `P`, it is the first element satisfying `P && q`. -/
theorem listFind?_and_of_find? {α : Type} (l : List α) (q P : α → Bool) (x : α)
    (h : l.find? q = some x) (hx : P x = true) :
    l.find? (fun y => P y && q y) = some x := by
  induction l with
  | nil => simp at h
  | cons z zs ih =>
    by_cases hz : q z
    · have hzx : z = x := by
        rw [List.find?_cons_of_pos _ hz] at h
        exact Option.some.inj h
      subst hzx
      rw [List.find?_cons_of_pos _ (by simp [hz, hx])]
    · rw [List.find?_cons_of_neg _ hz] at h
      rw [List.find?_cons_of_neg _ (by simp [hz])]
      exact ih h

/-- The CRM system identifiers (crm_types.py, class CRMSystem). -/
inductive CRMSystem where
  | hubspot
  | salesforce
  | pipedrive
  | sap_b1
deriving DecidableEq, Repr

/-- One row of the crm_connections table together with its dataclass view
(crm_credentials_store.py, CRMConnectionInfo).  Timestamps are integer
milliseconds since the epoch. -/
structure CRMConnectionInfo where
  tenant_id : String
  crm_system : CRMSystem
  access_token : Option String
  refresh_token : Option String
  expires_at : Option Int
  token_type : Option String := none
  scope : Option String := none
  is_enabled : Bool := true
  created_time : Option Int := none
  last_modified_time : Option Int := none
  created_by : Option String := none
  modified_by : Option String := none
deriving DecidableEq, Repr

/-- CRMConnectionInfo.is_expired: the token counts as expired when
expires_at <= now + skew (None means never expired).  The source default
skew is 60 seconds; times are in milliseconds here. -/
def CRMConnectionInfo.is_expired (c : CRMConnectionInfo) (now : Int)
    (skew_seconds : Int := 60) : Bool :=
  match c.expires_at with
  | none => false
  | some e => e ≤ now + skew_seconds * 1000

/-- The crm_connections table, primary key (tenant_id, crm_system). -/
abbrev CredStore := List CRMConnectionInfo

/-- CRMCredentialsStore.get_credentials: SELECT ... WHERE tenant_id = :t
AND crm_system = :s LIMIT 1. -/
def getCredentials (store : CredStore) (tenant_id : String)
    (crm_system : CRMSystem) : Option CRMConnectionInfo :=
  store.find? (fun c => decide (c.tenant_id = tenant_id ∧ c.crm_system = crm_system))

/-- CRMCredentialsStore.upsert_credentials: INSERT ... ON CONFLICT
(tenant_id, crm_system) DO UPDATE SET every column except created_time
(and the key columns).  The VALUES row defaults created_time and
last_modified_time to now() when the dataclass carries None. -/
def upsertCredentials (store : CredStore) (info : CRMConnectionInfo)
    (now : Int) : CredStore :=
  let row := { info with
    created_time := some (info.created_time.getD now),
    last_modified_time := some (info.last_modified_time.getD now) }
  if store.any (fun c =>
      decide (c.tenant_id = info.tenant_id ∧ c.crm_system = info.crm_system)) then
    store.map (fun c =>
      if c.tenant_id = info.tenant_id ∧ c.crm_system = info.crm_system then
        { row with created_time := c.created_time }
      else c)
  else store ++ [row]

/-- The credential-store error taxonomy (CRMConnectionError subclasses). -/
inductive CredError where
  | notConnected (tenant_id : String) (crm_system : CRMSystem)
  | tokenExpired (tenant_id : String) (crm_system : CRMSystem)
  | tokenRefreshFailed (tenant_id : String) (crm_system : CRMSystem) (cause : String)
deriving DecidableEq, Repr

/-- CRMCredentialsStore.get_active_credentials.  The refresh function is a
parameter that either raises (`.error cause`) or returns a refreshed
connection; on success the refreshed connection is persisted via upsert
and returned together with the updated store. -/
def getActiveCredentials (store : CredStore) (now : Int) (tenant_id : String)
    (crm_system : CRMSystem)
    (refresh_fn : Option (CRMConnectionInfo → Except String CRMConnectionInfo) := none) :
    Except CredError (CRMConnectionInfo × CredStore) :=
  match getCredentials store tenant_id crm_system with
  | none => .error (.notConnected tenant_id crm_system)
  | some info =>
    if !info.is_enabled then .error (.notConnected tenant_id crm_system)
    else if !(info.is_expired now) then .ok (info, store)
    else
      match refresh_fn with
      | none => .error (.tokenExpired tenant_id crm_system)
      | some f =>
        match f info with
        | .error exc => .error (.tokenRefreshFailed tenant_id crm_system exc)
        | .ok refreshed => .ok (refreshed, upsertCredentials store refreshed now)

/-- CRMCredentialsStore.list_connections_for_tenant. -/
def listConnectionsForTenant (store : CredStore) (tenant_id : String) :
    List CRMConnectionInfo :=
  store.filter (fun c => decide (c.tenant_id = tenant_id))

/-- CRMCredentialsStore.list_connected_systems: enabled connections only,
deduplicated, in first-seen order. -/
def listConnectedSystems (store : CredStore) (tenant_id : String) : List CRMSystem :=
  (listConnectionsForTenant store tenant_id).foldl
    (fun systems c =>
      if c.is_enabled ∧ ¬ systems.contains c.crm_system then
        systems ++ [c.crm_system]
      else systems) []

/-- Looking the key of a just-upserted connection back up finds a row that
carries the upserted token data. -/
theorem getCredentials_upsertCredentials (store : CredStore)
    (info : CRMConnectionInfo) (now : Int) :
    (getCredentials (upsertCredentials store info now) info.tenant_id
        info.crm_system).map
      (fun c => (c.access_token, c.refresh_token, c.expires_at)) =
    some (info.access_token, info.refresh_token, info.expires_at) := by
  induction store with
  | nil =>
    simp only [upsertCredentials, List.any_nil, Bool.false_eq_true, if_false,
      List.nil_append, getCredentials]
    rw [findCons_pos (fun x : CRMConnectionInfo => decide (x.tenant_id = info.tenant_id ∧
      x.crm_system = info.crm_system)) _ [] (by simp)]
    simp
  | cons c cs ih =>
    by_cases hc : c.tenant_id = info.tenant_id ∧ c.crm_system = info.crm_system
    · have hany : ((c :: cs).any (fun x =>
          decide (x.tenant_id = info.tenant_id ∧ x.crm_system = info.crm_system))) = true := by
        simp only [List.any_cons, Bool.or_eq_true]
        exact Or.inl (decide_eq_true hc)
      simp only [upsertCredentials, if_pos hany, List.map_cons, if_pos hc,
        getCredentials]
      rw [findCons_pos (fun x : CRMConnectionInfo => decide (x.tenant_id = info.tenant_id ∧
        x.crm_system = info.crm_system)) _ _ (by simp)]
      simp
    · have hcneg : ¬ (decide (c.tenant_id = info.tenant_id ∧
          c.crm_system = info.crm_system)) = true :=
        fun hh => hc (of_decide_eq_true hh)
      by_cases hcs : (cs.any (fun x =>
          decide (x.tenant_id = info.tenant_id ∧ x.crm_system = info.crm_system))) = true
      · have hany : ((c :: cs).any (fun x =>
            decide (x.tenant_id = info.tenant_id ∧ x.crm_system = info.crm_system))) = true := by
          simp only [List.any_cons, Bool.or_eq_true]
          exact Or.inr hcs
        simp only [upsertCredentials, if_pos hany, List.map_cons, if_neg hc,
          getCredentials]
        rw [findCons_neg (fun x : CRMConnectionInfo => decide (x.tenant_id = info.tenant_id ∧
          x.crm_system = info.crm_system)) _ _ (Bool.eq_false_iff.mpr hcneg)]
        have hrest := ih
        simp only [upsertCredentials, if_pos hcs, getCredentials] at hrest
        exact hrest
      · have hcs' : (cs.any (fun x =>
            decide (x.tenant_id = info.tenant_id ∧ x.crm_system = info.crm_system))) = false :=
          Bool.eq_false_iff.mpr hcs
        have hany : ¬ ((c :: cs).any (fun x =>
            decide (x.tenant_id = info.tenant_id ∧ x.crm_system = info.crm_system))) = true := by
          simp only [List.any_cons, Bool.or_eq_true]
          rintro (h1 | h2)
          · exact hcneg h1
          · exact hcs h2
        simp only [upsertCredentials, if_neg hany, List.cons_append, getCredentials]
        rw [findCons_neg (fun x : CRMConnectionInfo => decide (x.tenant_id = info.tenant_id ∧
          x.crm_system = info.crm_system)) _ _ (Bool.eq_false_iff.mpr hcneg)]
        have hrest := ih
        simp only [upsertCredentials, getCredentials, hcs', Bool.false_eq_true,
          if_false] at hrest
        exact hrest

/-- Claim C2: for every tenant and CRM system, get_active_credentials
fails with NotConnected when no connection row exists or the connection is
disabled; when the connection is enabled but expired (expires_at at or
before now plus the 60-second skew, a missing expires_at meaning never
expired) it fails with TokenExpired if no refresh function is supplied,
fails with TokenRefreshFailed wrapping the cause if the refresh function
raises, and otherwise persists the refreshed connection via upsert and
returns it (so a subsequent get reflects the refreshed token); when the
connection is enabled and not expired it is returned unchanged. -/
theorem claim_C2_get_active_credentials (store : CredStore) (now : Int)
    (t : String) (s : CRMSystem)
    (rf : Option (CRMConnectionInfo → Except String CRMConnectionInfo)) :
    (getCredentials store t s = none →
      getActiveCredentials store now t s rf = .error (.notConnected t s)) ∧
    (∀ info, getCredentials store t s = some info → info.is_enabled = false →
      getActiveCredentials store now t s rf = .error (.notConnected t s)) ∧
    (∀ info e, getCredentials store t s = some info → info.is_enabled = true →
      info.expires_at = some e → e ≤ now + 60 * 1000 → rf = none →
      getActiveCredentials store now t s rf = .error (.tokenExpired t s)) ∧
    (∀ info e f cause, getCredentials store t s = some info →
      info.is_enabled = true → info.expires_at = some e → e ≤ now + 60 * 1000 →
      rf = some f → f info = .error cause →
      getActiveCredentials store now t s rf =
        .error (.tokenRefreshFailed t s cause)) ∧
    (∀ info e f newConn, getCredentials store t s = some info →
      info.is_enabled = true → info.expires_at = some e → e ≤ now + 60 * 1000 →
      rf = some f → f info = .ok newConn →
      getActiveCredentials store now t s rf =
        .ok (newConn, upsertCredentials store newConn now) ∧
      (newConn.tenant_id = t → newConn.crm_system = s →
        (getCredentials (upsertCredentials store newConn now) t s).map
            (fun c => c.access_token) = some newConn.access_token)) ∧
    (∀ info, getCredentials store t s = some info → info.is_enabled = true →
      (info.expires_at = none ∨
        ∃ e, info.expires_at = some e ∧ now + 60 * 1000 < e) →
      getActiveCredentials store now t s rf = .ok (info, store)) := by
  refine ⟨?_, ?_, ?_, ?_, ?_, ?_⟩
  · intro h
    simp [getActiveCredentials, h]
  · intro info hg he
    simp [getActiveCredentials, hg, he]
  · intro info e hg he hexp hle hrf
    have hx : info.is_expired now = true := by
      simp only [CRMConnectionInfo.is_expired, hexp, decide_eq_true_eq]
      exact hle
    simp [getActiveCredentials, hg, he, hx, hrf]
  · intro info e f cause hg he hexp hle hrf hf
    have hx : info.is_expired now = true := by
      simp only [CRMConnectionInfo.is_expired, hexp, decide_eq_true_eq]
      exact hle
    simp [getActiveCredentials, hg, he, hx, hrf, hf]
  · intro info e f newConn hg he hexp hle hrf hf
    have hx : info.is_expired now = true := by
      simp only [CRMConnectionInfo.is_expired, hexp, decide_eq_true_eq]
      exact hle
    constructor
    · simp [getActiveCredentials, hg, he, hx, hrf, hf]
    · intro h1 h2
      subst h1
      subst h2
      have htriple := getCredentials_upsertCredentials store newConn now
      cases hfind : getCredentials (upsertCredentials store newConn now)
          newConn.tenant_id newConn.crm_system with
      | none => rw [hfind] at htriple; simp at htriple
      | some c =>
        rw [hfind] at htriple
        simp at htriple
        simp [htriple.1]
  · intro info hg he hne
    have hx : info.is_expired now = false := by
      rcases hne with h | ⟨e, he1, he2⟩
      · simp [CRMConnectionInfo.is_expired, h]
      · simp only [CRMConnectionInfo.is_expired, he1]
        exact decide_eq_false (not_le.mpr he2)
    simp [getActiveCredentials, hg, he, hx]

/-- A disabled sample connection, used by witnesses. -/
def connDisabled : CRMConnectionInfo :=
  { tenant_id := "t1", crm_system := .hubspot, access_token := some "tok",
    refresh_token := none, expires_at := none, is_enabled := false }

/-- A sample connection whose token expired 10 seconds before time 0. -/
def connExpired : CRMConnectionInfo :=
  { tenant_id := "t1", crm_system := .hubspot, access_token := some "tok",
    refresh_token := some "ref", expires_at := some (-10000) }

/-- A sample connection whose token expires an hour after time 0. -/
def connFresh : CRMConnectionInfo :=
  { tenant_id := "t1", crm_system := .hubspot, access_token := some "tok",
    refresh_token := none, expires_at := some 3600000 }

/-- The refreshed replacement for connExpired. -/
def connRefreshed : CRMConnectionInfo :=
  { tenant_id := "t1", crm_system := .hubspot, access_token := some "tok2",
    refresh_token := some "ref2", expires_at := some 3600000 }

/-- Witness for claim C2: every branch of the theorem evaluated at a
concrete store around time 0 with the sample connections. -/
theorem claim_C2_get_active_credentials_witness :
    (getActiveCredentials [] 0 "t1" .hubspot none =
      .error (.notConnected "t1" .hubspot)) ∧
    (getActiveCredentials [connDisabled] 0 "t1" .hubspot none =
      .error (.notConnected "t1" .hubspot)) ∧
    (getActiveCredentials [connExpired] 0 "t1" .hubspot none =
      .error (.tokenExpired "t1" .hubspot)) ∧
    (getActiveCredentials [connExpired] 0 "t1" .hubspot
        (some (fun _ => .error "boom")) =
      .error (.tokenRefreshFailed "t1" .hubspot "boom")) ∧
    (getActiveCredentials [connExpired] 0 "t1" .hubspot
        (some (fun _ => .ok connRefreshed)) =
      .ok (connRefreshed, upsertCredentials [connExpired] connRefreshed 0)) ∧
    ((getCredentials (upsertCredentials [connExpired] connRefreshed 0)
        "t1" .hubspot).map (fun c => c.access_token) = some (some "tok2")) ∧
    (getActiveCredentials [connFresh] 0 "t1" .hubspot none =
      .ok (connFresh, [connFresh])) := by
  refine ⟨?_, ?_, ?_, ?_, ?_, ?_, ?_⟩
  · exact (claim_C2_get_active_credentials [] 0 "t1" .hubspot none).1 (by decide)
  · exact (claim_C2_get_active_credentials [connDisabled] 0 "t1" .hubspot
      none).2.1 connDisabled (by decide) (by decide)
  · exact (claim_C2_get_active_credentials [connExpired] 0 "t1" .hubspot
      none).2.2.1 connExpired (-10000) (by decide) (by decide) (by decide)
      (by decide) rfl
  · exact (claim_C2_get_active_credentials [connExpired] 0 "t1" .hubspot
      (some (fun _ => .error "boom"))).2.2.2.1 connExpired (-10000)
      (fun _ => .error "boom") "boom" (by decide) (by decide) (by decide)
      (by decide) rfl rfl
  · exact ((claim_C2_get_active_credentials [connExpired] 0 "t1" .hubspot
      (some (fun _ => .ok connRefreshed))).2.2.2.2.1 connExpired (-10000)
      (fun _ => .ok connRefreshed) connRefreshed (by decide) (by decide)
      (by decide) (by decide) rfl rfl).1
  · exact ((claim_C2_get_active_credentials [connExpired] 0 "t1" .hubspot
      (some (fun _ => .ok connRefreshed))).2.2.2.2.1 connExpired (-10000)
      (fun _ => .ok connRefreshed) connRefreshed (by decide) (by decide)
      (by decide) (by decide) rfl rfl).2 rfl rfl
  · exact (claim_C2_get_active_credentials [connFresh] 0 "t1" .hubspot
      none).2.2.2.2.2 connFresh (by decide) (by decide)
      (Or.inr ⟨3600000, by decide, by decide⟩)

/-- One row of crm_field_mappings as the repository dataclass sees it
(crm_field_mappings_repository.py, CRMFieldMappingRecord).  The row
conversion maps a NULL or empty direction column to "bidirectional". -/
structure CRMFieldMappingRecord where
  id : Int
  tenant_id : Option String
  crm_system : CRMSystem
  object_type : String
  udm_field : String
  crm_field : String
  is_active : Bool
  direction : String := "bidirectional"
deriving DecidableEq, Repr

/-- The crm_field_mappings table. -/
abbrev MappingDB := List CRMFieldMappingRecord

/-- HUBSPOT_DEFAULT_MAPPINGS (hubspot_default_mapping.py). -/
def HUBSPOT_DEFAULT_MAPPINGS : Dict String (Dict String String) :=
  [("company",
     [("company_name", "name"),
      ("company_domain", "domain"),
      ("company_website", "website"),
      ("company_industry", "industry"),
      ("company_employee_count", "numberofemployees"),
      ("company_city", "city"),
      ("company_country", "country")]),
   ("contact",
     [("first_name", "firstname"),
      ("last_name", "lastname"),
      ("email", "email"),
      ("phone", "phone"),
      ("job_title", "jobtitle"),
      ("mobile_phone", "mobilephone"),
      ("linkedin_profile_url", "linkedinbio")]),
   ("deal",
     [("deal_name", "dealname"),
      ("deal_amount", "amount"),
      ("deal_stage", "dealstage"),
      ("deal_pipeline", "pipeline"),
      ("close_date", "closedate")]),
   ("activity",
     [("activity_type", "hs_activity_type"),
      ("activity_subject", "hs_note_body"),
      ("activity_timestamp", "hs_timestamp")])]

/-- SALESFORCE_DEFAULT_MAPPINGS (salesforce_default_mapping.py). -/
def SALESFORCE_DEFAULT_MAPPINGS : Dict String (Dict String String) :=
  [("company",
     [("company_name", "Name"),
      ("company_domain", "Website"),
      ("company_industry", "Industry"),
      ("company_employee_count", "NumberOfEmployees"),
      ("company_city", "BillingCity"),
      ("company_country", "BillingCountry")]),
   ("contact",
     [("first_name", "FirstName"),
      ("last_name", "LastName"),
      ("email", "Email"),
      ("phone", "Phone"),
      ("mobile_phone", "MobilePhone"),
      ("job_title", "Title")]),
   ("deal",
     [("deal_name", "Name"),
      ("deal_amount", "Amount"),
      ("deal_stage", "StageName"),
      ("close_date", "CloseDate"),
      ("deal_pipeline", "LeadSource")]),
   ("activity",
     [("activity_subject", "Subject"),
      ("activity_type", "Type"),
      ("activity_timestamp", "ActivityDate"),
      ("activity_description", "Description")])]

/-- SAP_B1_DEFAULT_MAPPINGS (sap_b1_default_mapping.py). -/
def SAP_B1_DEFAULT_MAPPINGS : Dict String (Dict String String) :=
  [("company",
     [("company_name", "CardName"),
      ("company_domain", "Website"),
      ("company_industry", "Industry"),
      ("company_city", "MailCity"),
      ("company_country", "MailCountry")]),
   ("contact",
     [("first_name", "FirstName"),
      ("last_name", "LastName"),
      ("email", "E_Mail"),
      ("phone", "Phone1"),
      ("mobile_phone", "MobilePhone"),
      ("job_title", "Position")]),
   ("deal",
     [("deal_name", "Name"),
      ("deal_amount", "MaxLocalTotal"),
      ("deal_stage", "CurrentStageNumber"),
      ("close_date", "ClosingDate")]),
   ("activity",
     [("activity_subject", "Details"),
      ("activity_type", "ActivityType"),
      ("activity_timestamp", "StartDate")])]

/-- crm_field_mapping_engine.py, _get_default_mapping_for: lower-case the
object type, pick the per-system table entry, defaulting to an empty
mapping; systems without a table (Pipedrive) get an empty mapping. -/
def getDefaultMappingFor (crm_system : CRMSystem) (object_type : String) :
    Dict String String :=
  let ot := pyLower object_type
  match crm_system with
  | .hubspot => (dictGet HUBSPOT_DEFAULT_MAPPINGS ot).getD []
  | .salesforce => (dictGet SALESFORCE_DEFAULT_MAPPINGS ot).getD []
  | .sap_b1 => (dictGet SAP_B1_DEFAULT_MAPPINGS ot).getD []
  | .pipedrive => []

/-- The NULLS FIRST rank of a row: global rows (NULL tenant) sort before
tenant rows. -/
def recRank (r : CRMFieldMappingRecord) : Nat :=
  match r.tenant_id with
  | none => 0
  | some _ => 1

/-- Stable insertion of a row into a list sorted by udm_field_name. -/
def insertByField (x : CRMFieldMappingRecord) :
    List CRMFieldMappingRecord → List CRMFieldMappingRecord
  | [] => [x]
  | y :: ys =>
    if strLeB x.udm_field y.udm_field then x :: y :: ys
    else y :: insertByField x ys

/-- Stable sort by udm_field_name. -/
def sortByField (l : List CRMFieldMappingRecord) : List CRMFieldMappingRecord :=
  l.foldr insertByField []

/-- The ORDER BY tenant_id NULLS FIRST, udm_field_name of the repository
query: global rows first, then tenant rows, each group ordered by
udm_field_name.  (The filtered row set holds at most one distinct non-NULL
tenant, so ranking by NULL-ness captures the tenant_id ordering.) -/
def orderNullsFirstByField (l : List CRMFieldMappingRecord) :
    List CRMFieldMappingRecord :=
  sortByField (l.filter (fun r => decide (recRank r = 0))) ++
    sortByField (l.filter (fun r => decide (recRank r = 1)))

/-- The WHERE clause of the repository query: crm_system and object_type
match, the row is active, and the tenant is the requested one or NULL. -/
def rowMatches (tenant_id : Option String) (crm_system : CRMSystem)
    (object_type : String) (r : CRMFieldMappingRecord) : Bool :=
  decide (r.crm_system = crm_system) && decide (r.object_type = object_type) &&
  r.is_active &&
  (match tenant_id with
   | some t => decide (r.tenant_id = some t) || decide (r.tenant_id = none)
   | none => decide (r.tenant_id = none))

/-- crm_field_mappings_repository.py,
CRMFieldMappingsRepository.get_active_mappings_for_object: select the
active rows for (tenant-or-NULL, system, object type), order them with
globals first, then deduplicate per udm_field keeping the last row. -/
def getActiveMappingsForObject (db : MappingDB) (tenant_id : Option String)
    (crm_system : CRMSystem) (object_type : String) :
    List CRMFieldMappingRecord :=
  let rows := db.filter (rowMatches tenant_id crm_system object_type)
  let ordered := orderNullsFirstByField rows
  let by_udm := ordered.foldl (fun d r =>
    if (fun _ : CRMFieldMappingRecord => true) r then dictInsert d r.udm_field r
    else d) []
  by_udm.map (fun p => p.2)

/-- Only outbound/bidirectional records feed the UDM-to-CRM direction
(crm_field_mapping_engine.py, get_effective_mapping). -/
def directionOk (r : CRMFieldMappingRecord) : Bool :=
  r.direction == "outbound" || r.direction == "bidirectional"

/-- crm_field_mapping_engine.py, CRMFieldMappingEngine.get_effective_mapping:
start from the per-system default table and overlay the repository records,
keeping only outbound/bidirectional ones. -/
def getEffectiveMapping (db : MappingDB) (tenant_id : Option String)
    (crm_system : CRMSystem) (object_type : String) : Dict String String :=
  let default_mapping := getDefaultMappingFor crm_system object_type
  let records := getActiveMappingsForObject db tenant_id crm_system object_type
  records.foldl (fun m r =>
    if directionOk r then dictInsert m r.udm_field r.crm_field else m)
    default_mapping

/-- A generic UDM object as the mapping engine sees one: the dataclass's
attribute dictionary (attribute name to possibly-None value).  A dataclass
never has two attributes of the same name, so the dict is well-formed. -/
structure UdmObject where
  fields : Dict String PyVal
deriving DecidableEq, Repr

/-- Python hasattr. -/
def UdmObject.hasattr (o : UdmObject) (name : String) : Bool :=
  o.fields.any (fun p => decide (p.1 = name))

/-- Python getattr: `none` when the attribute is absent (AttributeError
territory), `some v` with v the possibly-None value otherwise. -/
def UdmObject.getattr (o : UdmObject) (name : String) : Option PyVal :=
  dictGet o.fields name

/-- dataclasses.replace(existing, **patch): a patched copy, or a raised
TypeError (modelled as `.error ()`) when the patch names an attribute the
dataclass does not have. -/
def udmReplace (o : UdmObject) (patch : Dict String PyVal) :
    Except Unit UdmObject :=
  if patch.all (fun p => o.hasattr p.1) then
    .ok ⟨dictUpdate o.fields patch⟩
  else .error ()

/-- The loop body of map_udm_to_crm_properties: skip attributes the object
does not have and values that are None, otherwise assign
properties[crm_field] = value. -/
def mapPropsStep (udm_object : UdmObject) (props : Dict String PyVal)
    (p : String × String) : Dict String PyVal :=
  match UdmObject.getattr udm_object p.1 with
  | none => props
  | some none => props
  | some (some v) => dictInsert props p.2 (some v)

/-- crm_field_mapping_engine.py,
CRMFieldMappingEngine.map_udm_to_crm_properties: walk the effective
mapping building the CRM properties dict, then merge extra_fields last. -/
def mapUdmToCrmProperties (db : MappingDB) (tenant_id : Option String)
    (crm_system : CRMSystem) (object_type : String) (udm_object : UdmObject)
    (extra_fields : Option (Dict String PyVal)) : Dict String PyVal :=
  let effective := getEffectiveMapping db tenant_id crm_system object_type
  let properties := effective.foldl (mapPropsStep udm_object) []
  match extra_fields with
  | none => properties
  | some ex => dictUpdate properties ex

/-- The loop body of map_crm_to_udm: keep an incoming CRM property only
when the inverted mapping knows its CRM field name. -/
def patchStep (crm_to_udm : Dict String String) (pd : Dict String PyVal)
    (q : String × PyVal) : Dict String PyVal :=
  match dictGet crm_to_udm q.1 with
  | none => pd
  | some u => dictInsert pd u q.2

/-- crm_field_mapping_engine.py, CRMFieldMappingEngine.map_crm_to_udm:
invert the effective mapping, build the patch dict from the incoming CRM
properties, then patch the existing object (dataclasses.replace) or build
a fresh one.  Construction of a fresh object does not model the dataclass
constructor's required-field validation; no verified claim uses that
path. -/
def mapCrmToUdm (db : MappingDB) (tenant_id : Option String)
    (crm_system : CRMSystem) (object_type : String)
    (crm_properties : Dict String PyVal) (existing : Option UdmObject) :
    Except Unit UdmObject :=
  let effective := getEffectiveMapping db tenant_id crm_system object_type
  let crm_to_udm : Dict String String :=
    effective.foldl (fun d p =>
      if (fun _ : String × String => true) p then dictInsert d p.2 p.1 else d) []
  let patch_data : Dict String PyVal :=
    crm_properties.foldl (patchStep crm_to_udm) []
  match existing with
  | some ex => udmReplace ex patch_data
  | none => .ok ⟨patch_data⟩

/-- An entry of an updated dict is an old entry or the inserted pair. -/
theorem mem_dictInsert {α β : Type} [DecidableEq α]
    (d : Dict α β) (k : α) (v : β) (q : α × β) (h : q ∈ dictInsert d k v) :
    q ∈ d ∨ q = (k, v) := by
  induction d with
  | nil => simp [dictInsert] at h; simp [h]
  | cons p d ih =>
    by_cases hp : p.1 = k
    · simp only [dictInsert, if_pos hp, List.mem_cons] at h
      rcases h with h | h
      · exact Or.inr h
      · exact Or.inl (List.mem_cons_of_mem _ h)
    · simp only [dictInsert, if_neg hp, List.mem_cons] at h
      rcases h with h | h
      · exact Or.inl (List.mem_cons.mpr (Or.inl h))
      · rcases ih h with h2 | h2
        · exact Or.inl (List.mem_cons_of_mem _ h2)
        · exact Or.inr h2

/-- An entry of a fold of guarded dict assignments is an entry of the
initial dict or an assigned (key, value) pair with its guard passed. -/
theorem mem_foldl_insert {α K V : Type} [DecidableEq K]
    (l : List α) (d : Dict K V) (key : α → K) (val : α → V) (P : α → Bool)
    (q : K × V)
    (h : q ∈ l.foldl (fun acc x =>
      if P x then dictInsert acc (key x) (val x) else acc) d) :
    q ∈ d ∨ ∃ x, x ∈ l ∧ P x = true ∧ q = (key x, val x) := by
  induction l generalizing d with
  | nil => exact Or.inl h
  | cons x xs ih =>
    simp only [List.foldl_cons] at h
    rcases ih _ h with h2 | ⟨y, hy, hPy, hq⟩
    · by_cases hP : P x
      · rw [if_pos hP] at h2
        rcases mem_dictInsert _ _ _ _ h2 with h3 | h3
        · exact Or.inl h3
        · exact Or.inr ⟨x, List.mem_cons_self x xs, hP, h3⟩
      · rw [if_neg hP] at h2
        exact Or.inl h2
    · exact Or.inr ⟨y, List.mem_cons_of_mem _ hy, hPy, hq⟩

/-- A successful dict lookup is witnessed by an entry. -/
theorem dictGet_eq_some_mem {α β : Type} [DecidableEq α]
    (d : Dict α β) (k : α) (v : β) (h : dictGet d k = some v) : (k, v) ∈ d := by
  induction d with
  | nil => simp [dictGet] at h
  | cons p d ih =>
    by_cases hp : p.1 = k
    · simp only [dictGet, if_pos hp, Option.some.injEq] at h
      exact List.mem_cons.mpr (Or.inl (by rw [← hp, ← h]))
    · simp only [dictGet, if_neg hp] at h
      exact List.mem_cons_of_mem _ (ih h)

/-- In a well-formed dict, two entries with the same key are equal. -/
theorem dict_entries_eq {α β : Type} [DecidableEq α]
    (d : Dict α β) (hwf : DictWF d) (p q : α × β)
    (hp : p ∈ d) (hq : q ∈ d) (hk : p.1 = q.1) : p = q := by
  induction d with
  | nil => simp at hp
  | cons r d ih =>
    unfold DictWF dictKeys at hwf
    simp only [List.map_cons, List.nodup_cons] at hwf
    rcases List.mem_cons.mp hp with hp1 | hp2 <;>
      rcases List.mem_cons.mp hq with hq1 | hq2
    · rw [hp1, hq1]
    · exfalso
      exact hwf.1 ((hp1 ▸ hk) ▸ List.mem_map_of_mem (fun z => z.1) hq2)
    · exfalso
      exact hwf.1 ((hq1 ▸ hk.symm) ▸ List.mem_map_of_mem (fun z => z.1) hp2)
    · exact ih hwf.2 hp2 hq2

/-- Looking up a key in a python-dict update: the updating dict wins for
its own keys, the base dict answers for the rest. -/
theorem dictGet_dictUpdate {α β : Type} [DecidableEq α]
    (d other : Dict α β) (k : α) :
    dictGet (dictUpdate d other) k =
      match other.reverse.find? (fun q => decide (q.1 = k)) with
      | some q => some q.2
      | none => dictGet d k := by
  unfold dictUpdate
  rw [List.foldl_ext (fun acc p => dictInsert acc p.1 p.2)
    (fun acc p => if (fun _ : α × β => true) p then dictInsert acc p.1 p.2
      else acc) d (fun a b _ => by simp)]
  rw [dictGet_foldl_insert]
  simp only [Bool.true_and]
  cases hf : List.find? (fun x : α × β => decide (x.1 = k)) (List.reverse other) <;>
    simp [hf]

/-- In a well-formed dict the reversed entry list finds the entry of a
key. -/
theorem dict_reverse_find {α β : Type} [DecidableEq α]
    (d : Dict α β) (k : α) (v : β) (hwf : DictWF d) (hm : (k, v) ∈ d) :
    d.reverse.find? (fun q => decide (q.1 = k)) = some (k, v) := by
  apply listFind?_of_unique
  · exact List.mem_reverse.mpr hm
  · simp
  · intro x hx hpx
    exact dict_entries_eq d hwf x (k, v) (List.mem_reverse.mp hx) hm
      (of_decide_eq_true hpx)

/-- Values stored in a table of well-formed dicts are well-formed, so is
the fallback. -/
theorem dictGet_getD_WF {α β γ : Type} [DecidableEq α]
    (table : Dict α (Dict β γ)) (k : α)
    (h : ∀ p ∈ table, DictWF p.2) :
    DictWF ((dictGet table k).getD []) := by
  cases hfind : dictGet table k with
  | none => simp [DictWF, dictKeys]
  | some d =>
    simp only [Option.getD_some]
    exact h _ (dictGet_eq_some_mem table k d hfind)

/-- Every per-system default mapping table is a well-formed dict. -/
theorem getDefaultMappingFor_WF (sys : CRMSystem) (ot : String) :
    DictWF (getDefaultMappingFor sys ot) := by
  cases sys
  · exact dictGet_getD_WF HUBSPOT_DEFAULT_MAPPINGS (pyLower ot) (by decide)
  · exact dictGet_getD_WF SALESFORCE_DEFAULT_MAPPINGS (pyLower ot) (by decide)
  · simp [getDefaultMappingFor, DictWF, dictKeys]
  · exact dictGet_getD_WF SAP_B1_DEFAULT_MAPPINGS (pyLower ot) (by decide)

/-- The effective mapping carries exactly one CRM field per internal
field: it is a well-formed dict. -/
theorem getEffectiveMapping_WF (db : MappingDB) (tenant_id : Option String)
    (sys : CRMSystem) (ot : String) :
    DictWF (getEffectiveMapping db tenant_id sys ot) :=
  DictWF_foldl_insert _ _ _ _ _ (getDefaultMappingFor_WF sys ot)

/-- Membership is preserved by the by-field insertion. -/
theorem mem_insertByField (x : CRMFieldMappingRecord)
    (l : List CRMFieldMappingRecord) (a : CRMFieldMappingRecord) :
    a ∈ insertByField x l ↔ a = x ∨ a ∈ l := by
  induction l with
  | nil => simp [insertByField]
  | cons y ys ih =>
    by_cases hle : strLeB x.udm_field y.udm_field
    · simp [insertByField, hle]
    · simp only [insertByField, if_neg hle, List.mem_cons, ih]
      tauto

/-- Membership is preserved by the by-field sort. -/
theorem mem_sortByField (l : List CRMFieldMappingRecord)
    (a : CRMFieldMappingRecord) : a ∈ sortByField l ↔ a ∈ l := by
  induction l with
  | nil => simp [sortByField]
  | cons y ys ih =>
    simp only [sortByField, List.foldr_cons] at *
    rw [mem_insertByField, ih, List.mem_cons]

/-- The attribute is present on the object with a non-None value: the
condition under which map_udm_to_crm_properties emits a property. -/
def presentNonNull (obj : UdmObject) (u : String) : Bool :=
  match UdmObject.getattr obj u with
  | some (some _) => true
  | _ => false

/-- The properties-loop body as a guarded dict assignment. -/
theorem mapPropsStep_eq (obj : UdmObject) (props : Dict String PyVal)
    (p : String × String) :
    mapPropsStep obj props p =
      if presentNonNull obj p.1 then
        dictInsert props p.2 ((UdmObject.getattr obj p.1).getD none)
      else props := by
  unfold mapPropsStep presentNonNull
  cases h : UdmObject.getattr obj p.1 with
  | none => simp
  | some v => cases v <;> simp

/-- What the properties dict of map_udm_to_crm_properties answers for a
CRM field name: the value of the last effective-mapping pair that carries
this CRM field and a present, non-None object attribute. -/
theorem dictGet_mapProps (obj : UdmObject) (em : Dict String String)
    (c : String) :
    dictGet (em.foldl (mapPropsStep obj) []) c =
      match em.reverse.find?
          (fun p => presentNonNull obj p.1 && decide (p.2 = c)) with
      | some p => some ((UdmObject.getattr obj p.1).getD none)
      | none => none := by
  rw [List.foldl_ext (mapPropsStep obj)
    (fun props p => if presentNonNull obj p.1 then
      dictInsert props p.2 ((UdmObject.getattr obj p.1).getD none)
    else props) [] (fun a b _ => mapPropsStep_eq obj a b)]
  rw [dictGet_foldl_insert]
  cases hf : em.reverse.find?
      (fun p => presentNonNull obj p.1 && decide (p.2 = c)) <;>
    simp [hf, dictGet]

/-- What the inverted mapping of map_crm_to_udm answers for a CRM field
name: the internal field of the last effective-mapping pair carrying this
CRM field. -/
theorem dictGet_inverted (em : Dict String String) (c : String) :
    dictGet (em.foldl (fun d p =>
        if (fun _ : String × String => true) p then dictInsert d p.2 p.1
        else d) []) c =
      match em.reverse.find? (fun p => decide (p.2 = c)) with
      | some p => some p.1
      | none => none := by
  rw [dictGet_foldl_insert]
  simp only [Bool.true_and]
  cases hf : em.reverse.find? (fun p => decide (p.2 = c)) <;> simp [hf, dictGet]

/-- The patch-building loop body as a guarded dict assignment. -/
theorem patchStep_eq (m : Dict String String) (pd : Dict String PyVal)
    (q : String × PyVal) :
    patchStep m pd q =
      if (dictGet m q.1).isSome then
        dictInsert pd ((dictGet m q.1).getD "") q.2
      else pd := by
  unfold patchStep
  cases h : dictGet m q.1 <;> simp [h]

/-- The patch fold in guarded form. -/
theorem patch_foldl_eq (m : Dict String String) (props : Dict String PyVal) :
    props.foldl (patchStep m) [] =
      props.foldl (fun pd x =>
        if (dictGet m x.1).isSome then
          dictInsert pd ((dictGet m x.1).getD "") x.2
        else pd) [] :=
  List.foldl_ext _ _ _ (fun a b _ => patchStep_eq m a b)

/-- Unfolding a positive present-and-non-None test. -/
theorem presentNonNull_spec (obj : UdmObject) (u : String)
    (h : presentNonNull obj u = true) :
    ∃ v, UdmObject.getattr obj u = some (some v) := by
  unfold presentNonNull at h
  cases hg : UdmObject.getattr obj u with
  | none => rw [hg] at h; simp at h
  | some w =>
    cases w with
    | none => rw [hg] at h; simp at h
    | some v => exact ⟨v, rfl⟩

/-- No None value ever enters the mapped part of the properties dict. -/
theorem mapProps_no_none (obj : UdmObject) (em : Dict String String) :
    ∀ p ∈ em.foldl (mapPropsStep obj) [], p.2 ≠ (none : PyVal) := by
  intro p hp
  rw [List.foldl_ext (mapPropsStep obj)
    (fun props q => if presentNonNull obj q.1 then
      dictInsert props q.2 ((UdmObject.getattr obj q.1).getD none)
    else props) [] (fun a b _ => mapPropsStep_eq obj a b)] at hp
  rcases mem_foldl_insert em [] (fun x => x.2)
      (fun x => (UdmObject.getattr obj x.1).getD none)
      (fun x => presentNonNull obj x.1) p hp with h | ⟨x, _, hPx, hq⟩
  · simp at h
  · obtain ⟨v, hv⟩ := presentNonNull_spec obj x.1 hPx
    rw [hq]
    simp [hv]

/-- An entry of an updated dict is an entry of one of the two dicts. -/
theorem mem_dictUpdate {α β : Type} [DecidableEq α]
    (d other : Dict α β) (q : α × β) (h : q ∈ dictUpdate d other) :
    q ∈ d ∨ q ∈ other := by
  unfold dictUpdate at h
  rw [List.foldl_ext (fun acc p => dictInsert acc p.1 p.2)
    (fun acc p => if (fun _ : α × β => true) p then dictInsert acc p.1 p.2
      else acc) d (fun a b _ => by simp)] at h
  rcases mem_foldl_insert other d (fun x => x.1) (fun x => x.2)
      (fun _ => true) q h with h | ⟨x, hx, _, hq⟩
  · exact Or.inl h
  · right
    rw [hq]
    simpa using hx

/-- The field-mapping store of the claim C4 counterexample: a global
outbound record and a tenant-specific inbound record for the same
internal field company_name. -/
def dbShadow : MappingDB :=
  [{ id := 1, tenant_id := none, crm_system := .hubspot,
     object_type := "company", udm_field := "company_name",
     crm_field := "GlobalProp", is_active := true, direction := "outbound" },
   { id := 2, tenant_id := some "t1", crm_system := .hubspot,
     object_type := "company", udm_field := "company_name",
     crm_field := "TenantProp", is_active := true, direction := "inbound" }]

/-- Claim C6, counterexample: with an empty mapping store, an empty
object and extra_fields carrying a None value, the produced properties
dict maps "x" to None — the claim states the result contains no None
value for every extra_fields argument. -/
theorem claim_C6_counterexample :
    dictGet (mapUdmToCrmProperties [] none .hubspot "company" ⟨[]⟩
        (some [("x", (none : PyVal))])) "x" = some none ∧
    ¬ (∀ p ∈ mapUdmToCrmProperties [] none .hubspot "company" ⟨[]⟩
        (some [("x", (none : PyVal))]), p.2 ≠ none) := by
  constructor
  · decide
  · intro h
    exact h ("x", none) (by decide) rfl

/-- Claim C6 (amended): the properties dict built by
map_udm_to_crm_properties contains no None value as long as extra_fields
does not itself carry one (mapped fields whose value is None, and absent
attributes, are omitted); every mapped entry stems from an effective-
mapping pair whose attribute is present and non-None on the object; and
extra_fields are merged last, taking precedence over mapped fields. -/
theorem claim_C6_null_skip (db : MappingDB) (tenant : Option String)
    (sys : CRMSystem) (ot : String) (obj : UdmObject)
    (extra : Option (Dict String PyVal)) :
    ((extra = none ∨ ∃ ex, extra = some ex ∧ ∀ q ∈ ex, q.2 ≠ (none : PyVal)) →
      ∀ p ∈ mapUdmToCrmProperties db tenant sys ot obj extra, p.2 ≠ none) ∧
    (∀ p ∈ mapUdmToCrmProperties db tenant sys ot obj none,
      ∃ pair, pair ∈ getEffectiveMapping db tenant sys ot ∧ pair.2 = p.1 ∧
        UdmObject.getattr obj pair.1 = some p.2 ∧ p.2 ≠ none) ∧
    (∀ ex, extra = some ex → DictWF ex → ∀ k ∈ dictKeys ex,
      dictGet (mapUdmToCrmProperties db tenant sys ot obj extra) k =
        dictGet ex k) := by
  refine ⟨?_, ?_, ?_⟩
  · rintro (rfl | ⟨ex, rfl, hex⟩) p hp
    · exact mapProps_no_none obj _ p hp
    · have hdef : mapUdmToCrmProperties db tenant sys ot obj (some ex) =
          dictUpdate ((getEffectiveMapping db tenant sys ot).foldl
            (mapPropsStep obj) []) ex := rfl
      rw [hdef] at hp
      rcases mem_dictUpdate _ _ _ hp with h | h
      · exact mapProps_no_none obj _ p h
      · exact hex p h
  · intro p hp
    have hdef : mapUdmToCrmProperties db tenant sys ot obj none =
        (getEffectiveMapping db tenant sys ot).foldl (mapPropsStep obj) [] :=
      rfl
    rw [hdef] at hp
    rw [List.foldl_ext (mapPropsStep obj)
      (fun props q => if presentNonNull obj q.1 then
        dictInsert props q.2 ((UdmObject.getattr obj q.1).getD none)
      else props) [] (fun a b _ => mapPropsStep_eq obj a b)] at hp
    rcases mem_foldl_insert (getEffectiveMapping db tenant sys ot) []
        (fun x : String × String => x.2)
        (fun x : String × String => (UdmObject.getattr obj x.1).getD none)
        (fun x : String × String => presentNonNull obj x.1) p hp with
      h | ⟨x, hx, hPx, hq⟩
    · simp at h
    · obtain ⟨v, hv⟩ := presentNonNull_spec obj x.1 hPx
      refine ⟨x, hx, ?_, ?_, ?_⟩ <;> rw [hq] <;> simp [hv]
  · rintro ex rfl hwf k hk
    have hdef : mapUdmToCrmProperties db tenant sys ot obj (some ex) =
        dictUpdate ((getEffectiveMapping db tenant sys ot).foldl
          (mapPropsStep obj) []) ex := rfl
    rw [hdef, dictGet_dictUpdate]
    obtain ⟨p, hp, hpk⟩ := List.mem_map.mp hk
    have hmem : (k, p.2) ∈ ex := by rw [← hpk]; exact hp
    rw [dict_reverse_find ex k p.2 hwf hmem]
    rw [dictGet_eq_some_of_mem ex k p.2 hwf hmem]

/-- Witness for claim C6 (amended): concrete evaluation with an object
carrying a None field, a mapped non-None field, and extra_fields that
override a mapped property. -/
theorem claim_C6_null_skip_witness :
    (∀ p ∈ mapUdmToCrmProperties [] none .hubspot "company"
        ⟨[("company_name", some (Value.s "Acme")), ("company_city", none)]⟩
        (some [("name", some (Value.s "Override"))]), p.2 ≠ none) ∧
    (dictGet (mapUdmToCrmProperties [] none .hubspot "company"
        ⟨[("company_name", some (Value.s "Acme")), ("company_city", none)]⟩
        (some [("name", some (Value.s "Override"))])) "name" =
      some (some (Value.s "Override"))) := by
  constructor
  · exact (claim_C6_null_skip [] none .hubspot "company"
      ⟨[("company_name", some (Value.s "Acme")), ("company_city", none)]⟩
      (some [("name", some (Value.s "Override"))])).1
      (Or.inr ⟨_, rfl, by decide⟩)
  · have h := (claim_C6_null_skip [] none .hubspot "company"
      ⟨[("company_name", some (Value.s "Acme")), ("company_city", none)]⟩
      (some [("name", some (Value.s "Override"))])).2.2
      [("name", some (Value.s "Override"))] rfl (by decide) "name" (by decide)
    rw [h]
    decide

/-- The inversion of the effective mapping built by map_crm_to_udm
(crm_field to udm_field, later pairs overwriting earlier ones). -/
def invertedMapping (em : Dict String String) : Dict String String :=
  em.foldl (fun d p =>
    if (fun _ : String × String => true) p then dictInsert d p.2 p.1 else d) []

/-- What the inverted mapping answers for a CRM field name. -/
theorem dictGet_invertedMapping (em : Dict String String) (c : String) :
    dictGet (invertedMapping em) c =
      match em.reverse.find? (fun p => decide (p.2 = c)) with
      | some p => some p.1
      | none => none :=
  dictGet_inverted em c

/-- The mapped properties dict is well-formed. -/
theorem mapProps_WF (obj : UdmObject) (em : Dict String String) :
    DictWF (em.foldl (mapPropsStep obj) []) := by
  rw [List.foldl_ext (mapPropsStep obj)
    (fun props q => if presentNonNull obj q.1 then
      dictInsert props q.2 ((UdmObject.getattr obj q.1).getD none)
    else props) [] (fun a b _ => mapPropsStep_eq obj a b)]
  exact DictWF_foldl_insert _ _ _ _ _ (by simp [DictWF, dictKeys])

/-- Core of the round-trip property: patching an object with the patch
dict built from its own mapped properties succeeds (when every mapped
internal field is an attribute of the object) and restores every mapped
non-None field. -/
theorem roundtripCore (em : Dict String String) (obj : UdmObject)
    (hobj : DictWF obj.fields)
    (hcov : ∀ u ∈ dictKeys em, UdmObject.hasattr obj u = true) :
    udmReplace obj ((em.foldl (mapPropsStep obj) []).foldl
        (patchStep (invertedMapping em)) []) =
      .ok ⟨dictUpdate obj.fields ((em.foldl (mapPropsStep obj) []).foldl
        (patchStep (invertedMapping em)) [])⟩ ∧
    ∀ u pv, (u, pv) ∈ obj.fields → u ∈ dictKeys em → pv ≠ none →
      dictGet (dictUpdate obj.fields ((em.foldl (mapPropsStep obj) []).foldl
        (patchStep (invertedMapping em)) [])) u = some pv := by
  have hall : ∀ q ∈ (em.foldl (mapPropsStep obj) []).foldl
      (patchStep (invertedMapping em)) [], UdmObject.hasattr obj q.1 = true := by
    intro q hq
    rw [patch_foldl_eq] at hq
    rcases mem_foldl_insert (em.foldl (mapPropsStep obj) []) []
        (fun x : String × PyVal => (dictGet (invertedMapping em) x.1).getD "")
        (fun x : String × PyVal => x.2)
        (fun x : String × PyVal => (dictGet (invertedMapping em) x.1).isSome)
        q hq with h | ⟨x, _, hPx, hqe⟩
    · simp at h
    · obtain ⟨u, hu⟩ := Option.isSome_iff_exists.mp hPx
      have hq1 : q.1 = u := by rw [hqe]; simp [hu]
      have hmeminv := dictGet_eq_some_mem (invertedMapping em) x.1 u hu
      unfold invertedMapping at hmeminv
      rcases mem_foldl_insert em []
          (fun p : String × String => p.2) (fun p : String × String => p.1)
          (fun _ : String × String => true) (x.1, u) hmeminv with
        h2 | ⟨p, hp, _, hpe⟩
      · simp at h2
      · have hup : u = p.1 := congrArg Prod.snd hpe
        have humem : u ∈ dictKeys em := by
          rw [hup]
          exact List.mem_map_of_mem (fun z => z.1) hp
        rw [hq1]
        exact hcov u humem
  have hallb : ((em.foldl (mapPropsStep obj) []).foldl
      (patchStep (invertedMapping em)) []).all
      (fun p => UdmObject.hasattr obj p.1) = true :=
    List.all_eq_true.mpr (fun q hq => hall q hq)
  constructor
  · unfold udmReplace
    rw [if_pos hallb]
  · intro u pv hmem hukeys hnn
    rw [dictGet_dictUpdate]
    cases hfp : ((em.foldl (mapPropsStep obj) []).foldl
        (patchStep (invertedMapping em)) []).reverse.find?
        (fun q => decide (q.1 = u)) with
    | none => exact dictGet_eq_some_of_mem obj.fields u pv hobj hmem
    | some q =>
      have hq1 : q.1 = u := by
        have h2 := List.find?_some hfp
        exact of_decide_eq_true h2
      have hqmem : q ∈ (em.foldl (mapPropsStep obj) []).foldl
          (patchStep (invertedMapping em)) [] :=
        List.mem_reverse.mp (List.mem_of_find?_eq_some hfp)
      rw [patch_foldl_eq] at hqmem
      rcases mem_foldl_insert (em.foldl (mapPropsStep obj) []) []
          (fun x : String × PyVal => (dictGet (invertedMapping em) x.1).getD "")
          (fun x : String × PyVal => x.2)
          (fun x : String × PyVal => (dictGet (invertedMapping em) x.1).isSome)
          q hqmem with h | ⟨x, hxmem, hPx, hqe⟩
      · simp at h
      · obtain ⟨w, hw⟩ := Option.isSome_iff_exists.mp hPx
        have hq1w : q.1 = w := by rw [hqe]; simp [hw]
        have hwu : w = u := by rw [← hq1w, hq1]
        subst hwu
        have hcase := dictGet_invertedMapping em x.1
        rw [hw] at hcase
        cases hfind1 : em.reverse.find? (fun p => decide (p.2 = x.1)) with
        | none => rw [hfind1] at hcase; simp at hcase
        | some pstar =>
          rw [hfind1] at hcase
          have hpstar1 : pstar.1 = w := by
            have := hcase
            simp only [Option.some.injEq] at this
            exact this.symm
          have hgetu : UdmObject.getattr obj w = some pv :=
            dictGet_eq_some_of_mem obj.fields w pv hobj hmem
          obtain ⟨v, rfl⟩ : ∃ v, pv = some v := by
            cases pv with
            | none => exact absurd rfl hnn
            | some v => exact ⟨v, rfl⟩
          have hPN : presentNonNull obj pstar.1 = true := by
            rw [hpstar1]
            unfold presentNonNull
            rw [hgetu]
          have hfind2 : em.reverse.find?
              (fun p => presentNonNull obj p.1 && decide (p.2 = x.1)) =
                some pstar :=
            listFind?_and_of_find? em.reverse
              (fun p => decide (p.2 = x.1))
              (fun p => presentNonNull obj p.1) pstar hfind1 hPN
          have hpropsget : dictGet (em.foldl (mapPropsStep obj) []) x.1 =
              some (some v) := by
            rw [dictGet_mapProps, hfind2]
            show some ((UdmObject.getattr obj pstar.1).getD none) = some (some v)
            rw [hpstar1, hgetu]
            rfl
          have hxpair : (x.1, x.2) ∈ em.foldl (mapPropsStep obj) [] := by
            simpa using hxmem
          have hxval : dictGet (em.foldl (mapPropsStep obj) []) x.1 =
              some x.2 :=
            dictGet_eq_some_of_mem _ x.1 x.2 (mapProps_WF obj em) hxpair
          have hx2 : x.2 = some v := by
            rw [hxval] at hpropsget
            exact Option.some.inj hpropsget
          have hq2 : q.2 = x.2 := by rw [hqe]
          show some q.2 = some (some v)
          rw [hq2, hx2]

/-- Two global active mapping records that translate the distinct internal
fields "f" and "g" to the same CRM field "F" (Pipedrive has no default
mapping, so these two rows are the whole effective mapping). -/
def dbDupCrmField : MappingDB :=
  [{ id := 1, tenant_id := none, crm_system := .pipedrive,
     object_type := "company", udm_field := "f", crm_field := "F",
     is_active := true },
   { id := 2, tenant_id := none, crm_system := .pipedrive,
     object_type := "company", udm_field := "g", crm_field := "F",
     is_active := true }]

/-- An object that has the mapped attribute "f" (non-None) but no
attribute "g". -/
def objDup : UdmObject := ⟨[("f", some (Value.s "x"))]⟩

/-- Claim C5, counterexample: "f" is an originally-mapped, non-None field
of the object, yet the round trip does not restore it — map_crm_to_udm
raises (dataclasses.replace receives the unknown attribute "g", because
the inverted mapping sends the shared CRM field "F" back to "g"). -/
theorem claim_C5_counterexample :
    mapCrmToUdm dbDupCrmField none .pipedrive "company"
      (mapUdmToCrmProperties dbDupCrmField none .pipedrive "company" objDup
        none)
      (some objDup) = .error () ∧
    dictGet (getEffectiveMapping dbDupCrmField none .pipedrive "company") "f" =
      some "F" ∧
    UdmObject.getattr objDup "f" = some (some (Value.s "x")) := by
  refine ⟨by decide, by decide, by decide⟩

/-- Claim C5 (amended): for every store, tenant, system and object type,
and every object all of whose effective-mapping internal fields are
attributes of the object, feeding the properties dict produced by
map_udm_to_crm_properties back through map_crm_to_udm with the object as
the existing object to patch succeeds and restores every
originally-mapped, non-None field of the object unchanged. -/
theorem claim_C5_roundtrip (db : MappingDB) (tenant : Option String)
    (sys : CRMSystem) (ot : String) (obj : UdmObject)
    (hobj : DictWF obj.fields)
    (hcov : ∀ u ∈ dictKeys (getEffectiveMapping db tenant sys ot),
      UdmObject.hasattr obj u = true) :
    ∃ obj2,
      mapCrmToUdm db tenant sys ot
        (mapUdmToCrmProperties db tenant sys ot obj none) (some obj) =
        .ok obj2 ∧
      ∀ u pv, (u, pv) ∈ obj.fields →
        u ∈ dictKeys (getEffectiveMapping db tenant sys ot) →
        pv ≠ none → UdmObject.getattr obj2 u = some pv := by
  have hcore := roundtripCore (getEffectiveMapping db tenant sys ot) obj
    hobj hcov
  exact ⟨⟨dictUpdate obj.fields
      ((((getEffectiveMapping db tenant sys ot).foldl (mapPropsStep obj) [])).foldl
        (patchStep (invertedMapping (getEffectiveMapping db tenant sys ot))) [])⟩,
    hcore.1, fun u pv hmem hk hnn => hcore.2 u pv hmem hk hnn⟩

/-- A company object carrying every internal field of the HubSpot company
default mapping (one of them None). -/
def objRound : UdmObject :=
  ⟨[("company_name", some (Value.s "Acme")),
    ("company_domain", some (Value.s "acme.example")),
    ("company_website", none),
    ("company_industry", some (Value.s "Software")),
    ("company_employee_count", some (Value.i 5)),
    ("company_city", some (Value.s "Berlin")),
    ("company_country", some (Value.s "DE"))]⟩

/-- Witness for claim C5 (amended): the round trip through the HubSpot
company default mapping restores every mapped non-None field of a
concrete company object. -/
theorem claim_C5_roundtrip_witness :
    ∃ obj2,
      mapCrmToUdm [] none .hubspot "company"
        (mapUdmToCrmProperties [] none .hubspot "company" objRound none)
        (some objRound) = .ok obj2 ∧
      ∀ u pv, (u, pv) ∈ objRound.fields →
        u ∈ dictKeys (getEffectiveMapping [] none .hubspot "company") →
        pv ≠ none → UdmObject.getattr obj2 u = some pv :=
  claim_C5_roundtrip [] none .hubspot "company" objRound (by decide) (by decide)

/-- The per-field deduplication dict answers with the last row of the
ordered list carrying the field. -/
theorem dictGet_byUdm (ordered : List CRMFieldMappingRecord) (f : String) :
    dictGet (ordered.foldl (fun d r =>
        if (fun _ : CRMFieldMappingRecord => true) r then
          dictInsert d r.udm_field r
        else d) []) f =
      ordered.reverse.find? (fun r => decide (r.udm_field = f)) := by
  rw [dictGet_foldl_insert]
  simp only [Bool.true_and]
  cases hf : ordered.reverse.find? (fun r => decide (r.udm_field = f)) <;>
    simp [hf, dictGet]

/-- Every entry of the deduplication dict is keyed by its row's field. -/
theorem byUdm_entry_field (ordered : List CRMFieldMappingRecord)
    (pair : String × CRMFieldMappingRecord)
    (h : pair ∈ ordered.foldl (fun d r =>
      if (fun _ : CRMFieldMappingRecord => true) r then
        dictInsert d r.udm_field r
      else d) []) :
    pair.1 = pair.2.udm_field ∧ pair.2 ∈ ordered := by
  rcases mem_foldl_insert ordered []
      (fun r : CRMFieldMappingRecord => r.udm_field)
      (fun r : CRMFieldMappingRecord => r) (fun _ => true) pair h with
    h2 | ⟨x, hx, _, hpe⟩
  · simp at h2
  · rw [hpe]
    exact ⟨rfl, hx⟩

/-- The effective mapping at an internal field, in terms of the last
matching filtered-and-ordered repository row: if the surviving row for
the field is outbound or bidirectional its CRM field wins, otherwise (or
when there is no row) the default mapping answers. -/
theorem effectiveMapping_lookup (db : MappingDB) (tenant : Option String)
    (sys : CRMSystem) (ot : String) (f : String) :
    dictGet (getEffectiveMapping db tenant sys ot) f =
      match (orderNullsFirstByField
          (db.filter (rowMatches tenant sys ot))).reverse.find?
          (fun r => decide (r.udm_field = f)) with
      | some r =>
        if directionOk r then some r.crm_field
        else dictGet (getDefaultMappingFor sys ot) f
      | none => dictGet (getDefaultMappingFor sys ot) f := by
  unfold getEffectiveMapping
  rw [dictGet_foldl_insert]
  have hwfByUdm : DictWF ((orderNullsFirstByField
      (db.filter (rowMatches tenant sys ot))).foldl (fun d r =>
        if (fun _ : CRMFieldMappingRecord => true) r then
          dictInsert d r.udm_field r
        else d) []) :=
    DictWF_foldl_insert _ _ _ _ _ (by simp [DictWF, dictKeys])
  cases hlast : (orderNullsFirstByField
      (db.filter (rowMatches tenant sys ot))).reverse.find?
      (fun r => decide (r.udm_field = f)) with
  | none =>
    have hnof : ∀ x ∈ getActiveMappingsForObject db tenant sys ot,
        ¬ x.udm_field = f := by
      intro x hx hxf
      unfold getActiveMappingsForObject at hx
      obtain ⟨pair, hpair, hpx⟩ := List.mem_map.mp hx
      have hent := byUdm_entry_field _ pair hpair
      have hget := dictGet_byUdm (orderNullsFirstByField
        (db.filter (rowMatches tenant sys ot))) f
      rw [hlast] at hget
      have hmempair : (f, x) ∈ (orderNullsFirstByField
          (db.filter (rowMatches tenant sys ot))).foldl (fun d r =>
            if (fun _ : CRMFieldMappingRecord => true) r then
              dictInsert d r.udm_field r
            else d) [] := by
        have hpairfx : pair = (f, x) := by
          have h1 : pair.1 = f := by rw [hent.1, hpx, hxf]
          exact Prod.ext h1 hpx
        rw [← hpairfx]
        exact hpair
      have := dictGet_eq_some_of_mem _ f x hwfByUdm hmempair
      rw [this] at hget
      simp at hget
    have hfe : (getActiveMappingsForObject db tenant sys ot).reverse.find?
        (fun r => directionOk r && decide (r.udm_field = f)) = none := by
      apply List.find?_eq_none.mpr
      intro x hx hpx
      simp only [Bool.and_eq_true, decide_eq_true_eq] at hpx
      exact hnof x (List.mem_reverse.mp hx) hpx.2
    rw [hfe]
  | some rlast =>
    have hget := dictGet_byUdm (orderNullsFirstByField
      (db.filter (rowMatches tenant sys ot))) f
    rw [hlast] at hget
    have hmempair := dictGet_eq_some_mem _ f rlast hget
    have hmemdedup : rlast ∈ getActiveMappingsForObject db tenant sys ot := by
      unfold getActiveMappingsForObject
      exact List.mem_map.mpr ⟨(f, rlast), hmempair, rfl⟩
    have hfield : rlast.udm_field = f :=
      (byUdm_entry_field _ (f, rlast) hmempair).1.symm
    have huniq : ∀ x ∈ getActiveMappingsForObject db tenant sys ot,
        x.udm_field = f → x = rlast := by
      intro x hx hxf
      unfold getActiveMappingsForObject at hx
      obtain ⟨pair, hpair, hpx⟩ := List.mem_map.mp hx
      have hent := byUdm_entry_field _ pair hpair
      have hpairfx : pair = (f, x) := by
        have h1 : pair.1 = f := by rw [hent.1, hpx, hxf]
        exact Prod.ext h1 hpx
      rw [hpairfx] at hpair
      have hgx := dictGet_eq_some_of_mem _ f x hwfByUdm hpair
      rw [hgx] at hget
      exact Option.some.inj hget
    by_cases hdir : directionOk rlast
    · have hfind : (getActiveMappingsForObject db tenant sys ot).reverse.find?
          (fun r => directionOk r && decide (r.udm_field = f)) = some rlast := by
        apply listFind?_of_unique
        · exact List.mem_reverse.mpr hmemdedup
        · simp [hdir, hfield]
        · intro x hx hpx
          simp only [Bool.and_eq_true, decide_eq_true_eq] at hpx
          exact huniq x (List.mem_reverse.mp hx) hpx.2
      rw [hfind]
      show some rlast.crm_field =
        if directionOk rlast then some rlast.crm_field
        else dictGet (getDefaultMappingFor sys ot) f
      rw [if_pos hdir]
    · have hfind : (getActiveMappingsForObject db tenant sys ot).reverse.find?
          (fun r => directionOk r && decide (r.udm_field = f)) = none := by
        apply List.find?_eq_none.mpr
        intro x hx hpx
        simp only [Bool.and_eq_true, decide_eq_true_eq] at hpx
        exact hdir ((huniq x (List.mem_reverse.mp hx) hpx.2) ▸ hpx.1)
      rw [hfind]
      show dictGet (getDefaultMappingFor sys ot) f =
        if directionOk rlast then some rlast.crm_field
        else dictGet (getDefaultMappingFor sys ot) f
      rw [if_neg hdir]

/-- The unique row of a group carrying the field is what the reversed
sorted group search finds. -/
theorem sortReverseFind_unique (l : List CRMFieldMappingRecord) (f : String)
    (r : CRMFieldMappingRecord) (hmem : r ∈ l) (hf : r.udm_field = f)
    (huniq : ∀ x ∈ l, x.udm_field = f → x = r) :
    (sortByField l).reverse.find? (fun x => decide (x.udm_field = f)) =
      some r := by
  apply listFind?_of_unique
  · exact List.mem_reverse.mpr ((mem_sortByField l r).mpr hmem)
  · simp [hf]
  · intro x hx hpx
    exact huniq x ((mem_sortByField l x).mp (List.mem_reverse.mp hx))
      (of_decide_eq_true hpx)

/-- A group without any row carrying the field searches to nothing. -/
theorem sortReverseFind_none (l : List CRMFieldMappingRecord) (f : String)
    (hno : ∀ x ∈ l, ¬ x.udm_field = f) :
    (sortByField l).reverse.find? (fun x => decide (x.udm_field = f)) =
      none := by
  apply List.find?_eq_none.mpr
  intro x hx hpx
  exact hno x ((mem_sortByField l x).mp (List.mem_reverse.mp hx))
    (of_decide_eq_true hpx)

/-- Claim C4 (amended): for every store, tenant, system and object type
the effective mapping is a dict with exactly one CRM field per internal
field, computed by deduplicating the active matching records per internal
field with tenant-specific records winning over global ones regardless of
direction, and then applying the surviving record only when its direction
is outbound or bidirectional.  Hence: a sole active tenant record for a
field wins when outbound/bidirectional and reverts the field to the
default when inbound-only (even shadowing a global outbound record); a
sole active global record wins when no tenant record exists for the
field; with no records at all the default answers. -/
theorem claim_C4_effective_mapping (db : MappingDB) (t : String)
    (sys : CRMSystem) (ot : String) (f : String) :
    DictWF (getEffectiveMapping db (some t) sys ot) ∧
    (∀ rt, rt ∈ db → rt.tenant_id = some t → rt.crm_system = sys →
      rt.object_type = ot → rt.is_active = true → rt.udm_field = f →
      (∀ x ∈ db, x.tenant_id = some t → x.crm_system = sys →
        x.object_type = ot → x.is_active = true → x.udm_field = f → x = rt) →
      ((directionOk rt = true →
        dictGet (getEffectiveMapping db (some t) sys ot) f =
          some rt.crm_field) ∧
       (directionOk rt = false →
        dictGet (getEffectiveMapping db (some t) sys ot) f =
          dictGet (getDefaultMappingFor sys ot) f))) ∧
    (∀ rg, rg ∈ db → rg.tenant_id = none → rg.crm_system = sys →
      rg.object_type = ot → rg.is_active = true → rg.udm_field = f →
      directionOk rg = true →
      (∀ x ∈ db, x.tenant_id = none → x.crm_system = sys →
        x.object_type = ot → x.is_active = true → x.udm_field = f → x = rg) →
      (∀ x ∈ db, x.tenant_id = some t → x.crm_system = sys →
        x.object_type = ot → x.is_active = true → ¬ x.udm_field = f) →
      dictGet (getEffectiveMapping db (some t) sys ot) f =
        some rg.crm_field) ∧
    ((∀ x ∈ db, (x.tenant_id = some t ∨ x.tenant_id = none) →
        x.crm_system = sys → x.object_type = ot → x.is_active = true →
        ¬ x.udm_field = f) →
      dictGet (getEffectiveMapping db (some t) sys ot) f =
        dictGet (getDefaultMappingFor sys ot) f) := by
  refine ⟨getEffectiveMapping_WF db (some t) sys ot, ?_, ?_, ?_⟩
  · intro rt hmem ht hcs hot hact hfld huniq
    have hrtrows : rt ∈ db.filter (rowMatches (some t) sys ot) :=
      List.mem_filter.mpr ⟨hmem, by simp [rowMatches, ht, hcs, hot, hact]⟩
    have hrtB : rt ∈ (db.filter (rowMatches (some t) sys ot)).filter
        (fun r => decide (recRank r = 1)) :=
      List.mem_filter.mpr ⟨hrtrows, by simp [recRank, ht]⟩
    have huniqB : ∀ x ∈ (db.filter (rowMatches (some t) sys ot)).filter
        (fun r => decide (recRank r = 1)), x.udm_field = f → x = rt := by
      intro x hxB hxf
      have hxrows := (List.mem_filter.mp hxB).1
      have hxrank := of_decide_eq_true (List.mem_filter.mp hxB).2
      have hxdb := (List.mem_filter.mp hxrows).1
      have hxmatch := (List.mem_filter.mp hxrows).2
      simp only [rowMatches, Bool.and_eq_true, Bool.or_eq_true,
        decide_eq_true_eq] at hxmatch
      have hxtenant : x.tenant_id = some t := by
        rcases hxmatch.2 with h | h
        · exact h
        · exfalso
          rw [recRank, h] at hxrank
          simp at hxrank
      exact huniq x hxdb hxtenant hxmatch.1.1.1 hxmatch.1.1.2 hxmatch.1.2 hxf
    have hBfind := sortReverseFind_unique _ f rt hrtB hfld huniqB
    have hfind : (orderNullsFirstByField
        (db.filter (rowMatches (some t) sys ot))).reverse.find?
        (fun r => decide (r.udm_field = f)) = some rt := by
      unfold orderNullsFirstByField
      rw [List.reverse_append, listFind?_append, hBfind]
    rw [effectiveMapping_lookup, hfind]
    constructor
    · intro hdir
      show (if directionOk rt then some rt.crm_field
        else dictGet (getDefaultMappingFor sys ot) f) = some rt.crm_field
      rw [if_pos hdir]
    · intro hdir
      show (if directionOk rt then some rt.crm_field
        else dictGet (getDefaultMappingFor sys ot) f) =
          dictGet (getDefaultMappingFor sys ot) f
      rw [if_neg (by simp [hdir])]
  · intro rg hmem ht hcs hot hact hfld hdir huniqg hnot
    have hBnone : ∀ x ∈ (db.filter (rowMatches (some t) sys ot)).filter
        (fun r => decide (recRank r = 1)), ¬ x.udm_field = f := by
      intro x hxB hxf
      have hxrows := (List.mem_filter.mp hxB).1
      have hxrank := of_decide_eq_true (List.mem_filter.mp hxB).2
      have hxdb := (List.mem_filter.mp hxrows).1
      have hxmatch := (List.mem_filter.mp hxrows).2
      simp only [rowMatches, Bool.and_eq_true, Bool.or_eq_true,
        decide_eq_true_eq] at hxmatch
      have hxtenant : x.tenant_id = some t := by
        rcases hxmatch.2 with h | h
        · exact h
        · exfalso
          rw [recRank, h] at hxrank
          simp at hxrank
      exact hnot x hxdb hxtenant hxmatch.1.1.1 hxmatch.1.1.2 hxmatch.1.2 hxf
    have hrgrows : rg ∈ db.filter (rowMatches (some t) sys ot) :=
      List.mem_filter.mpr ⟨hmem, by simp [rowMatches, ht, hcs, hot, hact]⟩
    have hrgA : rg ∈ (db.filter (rowMatches (some t) sys ot)).filter
        (fun r => decide (recRank r = 0)) :=
      List.mem_filter.mpr ⟨hrgrows, by simp [recRank, ht]⟩
    have huniqA : ∀ x ∈ (db.filter (rowMatches (some t) sys ot)).filter
        (fun r => decide (recRank r = 0)), x.udm_field = f → x = rg := by
      intro x hxA hxf
      have hxrows := (List.mem_filter.mp hxA).1
      have hxrank := of_decide_eq_true (List.mem_filter.mp hxA).2
      have hxdb := (List.mem_filter.mp hxrows).1
      have hxmatch := (List.mem_filter.mp hxrows).2
      simp only [rowMatches, Bool.and_eq_true, Bool.or_eq_true,
        decide_eq_true_eq] at hxmatch
      have hxtenant : x.tenant_id = none := by
        cases hx0 : x.tenant_id with
        | none => rfl
        | some t2 =>
          exfalso
          rw [recRank, hx0] at hxrank
          simp at hxrank
      exact huniqg x hxdb hxtenant hxmatch.1.1.1 hxmatch.1.1.2 hxmatch.1.2 hxf
    have hAfind := sortReverseFind_unique _ f rg hrgA hfld huniqA
    have hfind : (orderNullsFirstByField
        (db.filter (rowMatches (some t) sys ot))).reverse.find?
        (fun r => decide (r.udm_field = f)) = some rg := by
      unfold orderNullsFirstByField
      rw [List.reverse_append, listFind?_append,
        sortReverseFind_none _ f hBnone, hAfind]
    rw [effectiveMapping_lookup, hfind]
    show (if directionOk rg then some rg.crm_field
      else dictGet (getDefaultMappingFor sys ot) f) = some rg.crm_field
    rw [if_pos hdir]
  · intro hnone
    have hsides : ∀ g : Nat, ∀ x ∈ (db.filter (rowMatches (some t) sys ot)).filter
        (fun r => decide (recRank r = g)), ¬ x.udm_field = f := by
      intro g x hxg hxf
      have hxrows := (List.mem_filter.mp hxg).1
      have hxdb := (List.mem_filter.mp hxrows).1
      have hxmatch := (List.mem_filter.mp hxrows).2
      simp only [rowMatches, Bool.and_eq_true, Bool.or_eq_true,
        decide_eq_true_eq] at hxmatch
      exact hnone x hxdb hxmatch.2 hxmatch.1.1.1 hxmatch.1.1.2 hxmatch.1.2 hxf
    have hfind : (orderNullsFirstByField
        (db.filter (rowMatches (some t) sys ot))).reverse.find?
        (fun r => decide (r.udm_field = f)) = none := by
      unfold orderNullsFirstByField
      rw [List.reverse_append, listFind?_append,
        sortReverseFind_none _ f (hsides 1), sortReverseFind_none _ f (hsides 0)]
    rw [effectiveMapping_lookup, hfind]

/-- Modelled from the claim C4 wording, for comparison with the source
pipeline (not translated from the source): restrict the active matching
records to direction outbound or bidirectional FIRST, then overlay them
onto the default with tenant-specific records winning over global ones
for the same internal field. -/
def claimDescribedEffectiveMapping (db : MappingDB) (t : String)
    (sys : CRMSystem) (ot : String) : Dict String String :=
  let keep := fun (r : CRMFieldMappingRecord) =>
    decide (r.crm_system = sys) && decide (r.object_type = ot) &&
      r.is_active && directionOk r
  let globals := db.filter (fun r => keep r && decide (r.tenant_id = none))
  let tenants := db.filter (fun r => keep r && decide (r.tenant_id = some t))
  (globals ++ tenants).foldl
    (fun m r => dictInsert m r.udm_field r.crm_field)
    (getDefaultMappingFor sys ot)

/-- Claim C4, counterexample: with a global outbound record
company_name to "GlobalProp" and a tenant inbound record company_name to
"TenantProp", the code deduplicates per field BEFORE the direction
restriction, so the tenant inbound record shadows the global outbound
record and the default "name" survives; the claim's description
(restriction first, then tenant-over-global overlay) yields
"GlobalProp". -/
theorem claim_C4_counterexample :
    dictGet (getEffectiveMapping dbShadow (some "t1") .hubspot "company")
        "company_name" = some "name" ∧
    dictGet (claimDescribedEffectiveMapping dbShadow "t1" .hubspot "company")
        "company_name" = some "GlobalProp" ∧
    dictGet (getEffectiveMapping dbShadow (some "t1") .hubspot "company")
        "company_name" ≠
      dictGet (claimDescribedEffectiveMapping dbShadow "t1" .hubspot "company")
        "company_name" := by
  refine ⟨by decide, by decide, by decide⟩

/-- The mapping store of the claim C4 example: a global record name to
"Name" and a tenant t1 override name to "CompanyName". -/
def dbPrecedence : MappingDB :=
  [{ id := 1, tenant_id := none, crm_system := .hubspot,
     object_type := "company", udm_field := "name", crm_field := "Name",
     is_active := true },
   { id := 2, tenant_id := some "t1", crm_system := .hubspot,
     object_type := "company", udm_field := "name",
     crm_field := "CompanyName", is_active := true }]

/-- Witness for claim C4 (amended): tenant t1 sees its override, another
tenant sees the global record, and an untouched field keeps its default
translation. -/
theorem claim_C4_effective_mapping_witness :
    dictGet (getEffectiveMapping dbPrecedence (some "t1") .hubspot "company")
        "name" = some "CompanyName" ∧
    dictGet (getEffectiveMapping dbPrecedence (some "t2") .hubspot "company")
        "name" = some "Name" ∧
    dictGet (getEffectiveMapping dbPrecedence (some "t2") .hubspot "company")
        "company_name" = some "name" := by
  refine ⟨?_, ?_, ?_⟩
  · exact ((claim_C4_effective_mapping dbPrecedence "t1" .hubspot "company"
      "name").2.1
      { id := 2, tenant_id := some "t1", crm_system := .hubspot,
        object_type := "company", udm_field := "name",
        crm_field := "CompanyName", is_active := true }
      (by decide) (by decide) (by decide) (by decide) (by decide) (by decide)
      (by decide)).1 (by decide)
  · exact (claim_C4_effective_mapping dbPrecedence "t2" .hubspot "company"
      "name").2.2.1
      { id := 1, tenant_id := none, crm_system := .hubspot,
        object_type := "company", udm_field := "name", crm_field := "Name",
        is_active := true }
      (by decide) (by decide) (by decide) (by decide) (by decide) (by decide)
      (by decide) (by decide) (by decide)
  · have h := (claim_C4_effective_mapping dbPrecedence "t2" .hubspot "company"
      "company_name").2.2.2 (by decide)
    rw [h]
    decide

/-- CRMActivityType (crm_types.py): a str-valued enum. -/
inductive CRMActivityType where
  | call
  | email
  | meeting
  | task
  | note
deriving DecidableEq, Repr

/-- The string value of an activity type. -/
def CRMActivityType.value : CRMActivityType → String
  | .call => "call"
  | .email => "email"
  | .meeting => "meeting"
  | .task => "task"
  | .note => "note"

/-- CRMCompanyPayload (crm_types.py): the company payload fields.  The
float field sales_eur is carried as an integer; no embedded code inspects
its numeric value. -/
structure CRMCompanyPayload where
  leadlane_sub_company_id : Option String := none
  central_sub_company_id : Option String := none
  central_parent_company_id : Option String := none
  tenant_parent_company_id : Option String := none
  name : String
  business_description : Option String := none
  country_region : Option String := none
  city : Option String := none
  postal_code : Option String := none
  address_line_1 : Option String := none
  url : Option String := none
  website : Option String := none
  linkedin_account : Option String := none
  email_address : Option String := none
  phone : Option String := none
  phone_alt : Option String := none
  employees_total : Option Int := none
  sales_eur : Option Int := none
  year_founded : Option Int := none
  primary_industry_code : Option String := none
  primary_industry_system : Option String := none
  duns_number : Option String := none
  lifecycle_phase : Option String := none
  loss_reason : Option String := none
  responsible_sdr_id : Option String := none
  account_summary_gpt : Option String := none
  company_description_leadlane : Option String := none
  properties : Dict String PyVal := []
deriving DecidableEq, Repr

/-- CRMContactPayload (crm_types.py). -/
structure CRMContactPayload where
  leadlane_contact_id : Option String := none
  leadlane_sub_company_id : Option String := none
  lusha_contact_id : Option String := none
  lusha_record_id : Option String := none
  contact_first_name : Option String := none
  contact_last_name : Option String := none
  contact_department : Option String := none
  contact_job_title : Option String := none
  contact_seniority : Option String := none
  contact_email_1 : Option String := none
  contact_email_2 : Option String := none
  contact_phone_1 : Option String := none
  contact_phone_2 : Option String := none
  contact_phone_3 : Option String := none
  linkedin_url : Option String := none
  location_country : Option String := none
  location_country_iso : Option String := none
  location_city : Option String := none
  leadstatus : Option String := none
  loss_reason : Option String := none
  assigned_outreach_role : Option String := none
  assignment_reason_chatgpt : Option String := none
  notes : Option String := none
  properties : Dict String PyVal := []
deriving DecidableEq, Repr

/-- CRMDealPayload (crm_types.py).  Note: the payload's own internal ID
field is leadlane_demo_id; there is NO field leadlane_opportunity_id. -/
structure CRMDealPayload where
  leadlane_demo_id : Option String := none
  leadlane_account_id : Option String := none
  leadlane_contact_id : Option String := none
  responsible_sdr_id : Option String := none
  demo_date : Option String := none
  demo_invite_sent_at : Option String := none
  demo_preperation : Option String := none
  demo_status : Option String := none
  bant_budget : Option String := none
  bant_authority : Option String := none
  bant_need : Option String := none
  bant_timing : Option String := none
  bant_comment : Option String := none
  deal_name : Option String := none
  pipeline_id : Option String := none
  stage_id : Option String := none
  properties : Dict String PyVal := []
deriving DecidableEq, Repr

/-- CRMActivityPayload (crm_types.py).  Note: there is NO field
leadlane_activity_id. -/
structure CRMActivityPayload where
  activity_type : CRMActivityType
  leadlane_sub_company_id : Option String := none
  leadlane_contact_id : Option String := none
  leadlane_demo_id : Option String := none
  subject : Option String := none
  body : Option String := none
  timestamp : Option String := none
  direction : Option String := none
  status : Option String := none
  properties : Dict String PyVal := []
deriving DecidableEq, Repr

/-- Pydantic attribute access on a CRMCompanyPayload for string-typed
attributes: `some` with the attribute's value when the attribute exists,
`none` (an AttributeError) for any other name.  Only string-typed
attributes are listed; the embedded code performs such a dynamic access
only with string-field names. -/
def CRMCompanyPayload.strAttr (p : CRMCompanyPayload) : String → Option (Option String)
  | "leadlane_sub_company_id" => some p.leadlane_sub_company_id
  | "central_sub_company_id" => some p.central_sub_company_id
  | "central_parent_company_id" => some p.central_parent_company_id
  | "tenant_parent_company_id" => some p.tenant_parent_company_id
  | "name" => some (some p.name)
  | "business_description" => some p.business_description
  | "country_region" => some p.country_region
  | "city" => some p.city
  | "postal_code" => some p.postal_code
  | "address_line_1" => some p.address_line_1
  | "url" => some p.url
  | "website" => some p.website
  | "linkedin_account" => some p.linkedin_account
  | "email_address" => some p.email_address
  | "phone" => some p.phone
  | "phone_alt" => some p.phone_alt
  | "primary_industry_code" => some p.primary_industry_code
  | "primary_industry_system" => some p.primary_industry_system
  | "duns_number" => some p.duns_number
  | "lifecycle_phase" => some p.lifecycle_phase
  | "loss_reason" => some p.loss_reason
  | "responsible_sdr_id" => some p.responsible_sdr_id
  | "account_summary_gpt" => some p.account_summary_gpt
  | "company_description_leadlane" => some p.company_description_leadlane
  | _ => none

/-- Pydantic attribute access on a CRMDealPayload for string-typed
attributes; `none` is an AttributeError. -/
def CRMDealPayload.strAttr (p : CRMDealPayload) : String → Option (Option String)
  | "leadlane_demo_id" => some p.leadlane_demo_id
  | "leadlane_account_id" => some p.leadlane_account_id
  | "leadlane_contact_id" => some p.leadlane_contact_id
  | "responsible_sdr_id" => some p.responsible_sdr_id
  | "demo_date" => some p.demo_date
  | "demo_invite_sent_at" => some p.demo_invite_sent_at
  | "demo_preperation" => some p.demo_preperation
  | "demo_status" => some p.demo_status
  | "bant_budget" => some p.bant_budget
  | "bant_authority" => some p.bant_authority
  | "bant_need" => some p.bant_need
  | "bant_timing" => some p.bant_timing
  | "bant_comment" => some p.bant_comment
  | "deal_name" => some p.deal_name
  | "pipeline_id" => some p.pipeline_id
  | "stage_id" => some p.stage_id
  | _ => none

/-- Pydantic attribute access on a CRMActivityPayload for string-typed
attributes; `none` is an AttributeError. -/
def CRMActivityPayload.strAttr (p : CRMActivityPayload) : String → Option (Option String)
  | "activity_type" => some (some p.activity_type.value)
  | "leadlane_sub_company_id" => some p.leadlane_sub_company_id
  | "leadlane_contact_id" => some p.leadlane_contact_id
  | "leadlane_demo_id" => some p.leadlane_demo_id
  | "subject" => some p.subject
  | "body" => some p.body
  | "timestamp" => some p.timestamp
  | "direction" => some p.direction
  | "status" => some p.status
  | _ => none

/-- CRMSyncError (crm_types.py). -/
structure CRMSyncError where
  code : Option String := none
  message : String
  details : Dict String String := []
deriving DecidableEq, Repr

/-- CRMSyncResult (crm_types.py). -/
structure CRMSyncResult where
  success : Bool
  crm_system : CRMSystem
  crm_object_type : String
  crm_id : Option String := none
  leadlane_id : Option String := none
  errors : List CRMSyncError := []
  raw_response : Option (Dict String PyVal) := none
deriving DecidableEq, Repr

/-- Python truthiness test `not s` for an optional string: true for None
and for the empty string. -/
def pyFalsyStr : Option String → Bool
  | none => true
  | some s => decide (s = "")

/-- One row of a link table.  The account, contact, opportunity and
activity link dataclasses are structurally identical; their leadlane-side
and CRM-side columns (leadlane_sub_company_id/crm_account_id,
leadlane_contact_id/crm_contact_id, leadlane_demo_id/crm_opportunity_id,
leadlane_activity_id/crm_activity_id) are modelled by the uniform names
leadlane_id and crm_id. -/
structure CRMLink where
  tenant_id : String
  crm_system : CRMSystem
  leadlane_id : String
  crm_id : String
deriving DecidableEq, Repr

/-- upsert_link: INSERT ... ON CONFLICT (tenant_id, crm_system,
leadlane_id) DO UPDATE SET crm_id = EXCLUDED.crm_id. -/
def upsertLink (links : List CRMLink) (tenant_id : String)
    (crm_system : CRMSystem) (leadlane_id crm_id : String) : List CRMLink :=
  if links.any (fun l => decide (l.tenant_id = tenant_id ∧
      l.crm_system = crm_system ∧ l.leadlane_id = leadlane_id)) then
    links.map (fun l =>
      if l.tenant_id = tenant_id ∧ l.crm_system = crm_system ∧
          l.leadlane_id = leadlane_id then
        { l with crm_id := crm_id }
      else l)
  else links ++ [⟨tenant_id, crm_system, leadlane_id, crm_id⟩]

/-- get_by_leadlane_id. -/
def getLinkByLeadlaneId (links : List CRMLink) (tenant_id : String)
    (crm_system : CRMSystem) (leadlane_id : String) : Option CRMLink :=
  links.find? (fun l => decide (l.tenant_id = tenant_id ∧
    l.crm_system = crm_system ∧ l.leadlane_id = leadlane_id))

/-- get_by_crm_id (used by inbound webhook resolution). -/
def getLinkByCrmId (links : List CRMLink) (tenant_id : String)
    (crm_system : CRMSystem) (crm_id : String) : Option CRMLink :=
  links.find? (fun l => decide (l.tenant_id = tenant_id ∧
    l.crm_system = crm_system ∧ l.crm_id = crm_id))

/-- Looking a just-upserted link back up by its leadlane-side key finds
exactly the new association. -/
theorem getLinkByLeadlaneId_upsertLink (links : List CRMLink)
    (t : String) (s : CRMSystem) (lid cid : String) :
    getLinkByLeadlaneId (upsertLink links t s lid cid) t s lid =
      some ⟨t, s, lid, cid⟩ := by
  induction links with
  | nil =>
    simp only [upsertLink, List.any_nil, Bool.false_eq_true, if_false,
      List.nil_append, getLinkByLeadlaneId]
    rw [findCons_pos (fun l : CRMLink => decide (l.tenant_id = t ∧
      l.crm_system = s ∧ l.leadlane_id = lid)) _ [] (by simp)]
  | cons c cs ih =>
    by_cases hc : c.tenant_id = t ∧ c.crm_system = s ∧ c.leadlane_id = lid
    · have hany : ((c :: cs).any (fun l => decide (l.tenant_id = t ∧
          l.crm_system = s ∧ l.leadlane_id = lid))) = true := by
        simp only [List.any_cons, Bool.or_eq_true]
        exact Or.inl (decide_eq_true hc)
      simp only [upsertLink, if_pos hany, List.map_cons, if_pos hc,
        getLinkByLeadlaneId]
      rw [findCons_pos (fun l : CRMLink => decide (l.tenant_id = t ∧
        l.crm_system = s ∧ l.leadlane_id = lid)) _ _
        (by simp [hc.1, hc.2.1, hc.2.2])]
      simp only [Option.some.injEq]
      rcases c with ⟨ct, csys, cl, cc⟩
      obtain ⟨h1, h2, h3⟩ := hc
      simp only at h1 h2 h3
      rw [h1, h2, h3]
    · have hcneg : (decide (c.tenant_id = t ∧ c.crm_system = s ∧
          c.leadlane_id = lid)) = false := decide_eq_false hc
      by_cases hcs : (cs.any (fun l => decide (l.tenant_id = t ∧
          l.crm_system = s ∧ l.leadlane_id = lid))) = true
      · have hany : ((c :: cs).any (fun l => decide (l.tenant_id = t ∧
            l.crm_system = s ∧ l.leadlane_id = lid))) = true := by
          simp only [List.any_cons, Bool.or_eq_true]
          exact Or.inr hcs
        simp only [upsertLink, if_pos hany, List.map_cons, if_neg hc,
          getLinkByLeadlaneId]
        rw [findCons_neg (fun l : CRMLink => decide (l.tenant_id = t ∧
          l.crm_system = s ∧ l.leadlane_id = lid)) _ _ hcneg]
        have hrest := ih
        simp only [upsertLink, if_pos hcs, getLinkByLeadlaneId] at hrest
        exact hrest
      · have hcs' : (cs.any (fun l => decide (l.tenant_id = t ∧
            l.crm_system = s ∧ l.leadlane_id = lid))) = false :=
          Bool.eq_false_iff.mpr hcs
        have hany : ¬ ((c :: cs).any (fun l => decide (l.tenant_id = t ∧
            l.crm_system = s ∧ l.leadlane_id = lid))) = true := by
          simp only [List.any_cons, Bool.or_eq_true]
          rintro (h1 | h2)
          · rw [hcneg] at h1; exact Bool.false_ne_true h1
          · exact hcs h2
        simp only [upsertLink, if_neg hany, List.cons_append,
          getLinkByLeadlaneId]
        rw [findCons_neg (fun l : CRMLink => decide (l.tenant_id = t ∧
          l.crm_system = s ∧ l.leadlane_id = lid)) _ _ hcneg]
        have hrest := ih
        simp only [upsertLink, getLinkByLeadlaneId, hcs', Bool.false_eq_true,
          if_false] at hrest
        exact hrest

/-- A Python exception that escapes the embedded code. -/
inductive PyErr where
  | attributeError (msg : String)
deriving DecidableEq, Repr

/-- The outcome of a vendor-client upsert call: the call either raises or
returns a CRMSyncResult.  The concrete vendor clients perform HTTP and are
abstracted by an oracle from the existing CRM ID to an outcome. -/
inductive VendorOutcome where
  | raises (exc : String)
  | returns (r : CRMSyncResult)
deriving DecidableEq, Repr

/-- The state the Sync Service reads and writes: the credentials table and
the four link tables; the activity link repository is optional (the
constructor default is None) and has no implementation in the repository.
-/
structure SyncEnv where
  creds : CredStore
  accountLinks : List CRMLink := []
  contactLinks : List CRMLink := []
  opportunityLinks : List CRMLink := []
  activityLinks : Option (List CRMLink) := none
deriving DecidableEq, Repr

/-- CRMSyncService._simple_error_result. -/
def simpleErrorResult (crm_system : CRMSystem) (object_type : String)
    (leadlane_id : Option String) (code : String) (message : String)
    (details : Dict String String := []) : CRMSyncResult :=
  { success := false, crm_system := crm_system,
    crm_object_type := object_type, crm_id := none,
    leadlane_id := leadlane_id,
    errors := [{ code := some code, message := message, details := details }],
    raw_response := none }

/-- CRMSyncService._ensure_credentials: get_credentials returns None when
no row exists (it raises no CRMConnectionError, so the except branch and
its missing_credentials result are unreachable), and the subsequent
`conn.is_enabled` on None raises AttributeError; a disabled connection
yields the connection_disabled error result; otherwise None (all fine). -/
def ensureCredentials (creds : CredStore) (tenant_id : String)
    (crm_system : CRMSystem) (object_type : String)
    (leadlane_id : Option String) : Except PyErr (Option CRMSyncResult) :=
  match getCredentials creds tenant_id crm_system with
  | none => .error (.attributeError "NoneType object has no attribute is_enabled")
  | some conn =>
    if !conn.is_enabled then
      .ok (some (simpleErrorResult crm_system object_type leadlane_id
        "connection_disabled"
        "Die Verbindung ist fuer diesen Tenant deaktiviert."))
    else .ok none

/-- CRMSyncService._handle_link_update_for_company (and its contact and
opportunity twins): skip unless the result is successful and carries a
truthy crm_id, otherwise upsert the link. -/
def handleLinkUpdate (links : List CRMLink) (tenant_id : String)
    (crm_system : CRMSystem) (leadlane_id : String)
    (result : CRMSyncResult) : List CRMLink :=
  if !result.success || pyFalsyStr result.crm_id then links
  else upsertLink links tenant_id crm_system leadlane_id
    (result.crm_id.getD "")

/-- CRMSyncService.sync_company_to_crm.  The vendor oracle stands for
create_crm_client + client.upsert_company on this payload, as a function
of the existing CRM ID passed to the client. -/
def sync_company_to_crm (env : SyncEnv)
    (vendor : Option String → VendorOutcome) (tenant_id : String)
    (crm_system : CRMSystem) (payload : CRMCompanyPayload) :
    Except PyErr (CRMSyncResult × SyncEnv) :=
  if pyFalsyStr payload.leadlane_sub_company_id then
    .ok (simpleErrorResult crm_system "company" none "missing_leadlane_id"
      "CRMCompanyPayload.leadlane_sub_company_id ist erforderlich.", env)
  else
    let lid := payload.leadlane_sub_company_id.getD ""
    match ensureCredentials env.creds tenant_id crm_system "company"
        payload.leadlane_sub_company_id with
    | .error e => .error e
    | .ok (some errRes) => .ok (errRes, env)
    | .ok none =>
      let existing_link :=
        getLinkByLeadlaneId env.accountLinks tenant_id crm_system lid
      let existing_crm_id : Option String :=
        existing_link.map (fun l => l.crm_id)
      match vendor existing_crm_id with
      | .raises exc =>
        .ok (simpleErrorResult crm_system "company"
          payload.leadlane_sub_company_id "crm_client_error"
          "Unerwarteter Fehler beim Upsert der Company im CRM."
          [("exception", exc)], env)
      | .returns result =>
        let newLinks := handleLinkUpdate env.accountLinks tenant_id crm_system
          lid result
        .ok (result, { env with accountLinks := newLinks })

/-- CRMSyncService.sync_contact_to_crm. -/
def sync_contact_to_crm (env : SyncEnv)
    (vendor : Option String → VendorOutcome) (tenant_id : String)
    (crm_system : CRMSystem) (payload : CRMContactPayload) :
    Except PyErr (CRMSyncResult × SyncEnv) :=
  if pyFalsyStr payload.leadlane_contact_id then
    .ok (simpleErrorResult crm_system "contact" none "missing_leadlane_id"
      "CRMContactPayload.leadlane_contact_id ist erforderlich.", env)
  else
    let lid := payload.leadlane_contact_id.getD ""
    match ensureCredentials env.creds tenant_id crm_system "contact"
        payload.leadlane_contact_id with
    | .error e => .error e
    | .ok (some errRes) => .ok (errRes, env)
    | .ok none =>
      let existing_link :=
        getLinkByLeadlaneId env.contactLinks tenant_id crm_system lid
      let existing_crm_id : Option String :=
        existing_link.map (fun l => l.crm_id)
      match vendor existing_crm_id with
      | .raises exc =>
        .ok (simpleErrorResult crm_system "contact"
          payload.leadlane_contact_id "crm_client_error"
          "Unerwarteter Fehler beim Upsert des Kontakts im CRM."
          [("exception", exc)], env)
      | .returns result =>
        let newLinks := handleLinkUpdate env.contactLinks tenant_id crm_system
          lid result
        .ok (result, { env with contactLinks := newLinks })

/-- CRMSyncService.sync_opportunity_to_crm.  Its first statement reads
payload.leadlane_opportunity_id — an attribute CRMDealPayload does not
define (the payload field is leadlane_demo_id) — so pydantic raises
AttributeError before anything else happens. -/
def sync_opportunity_to_crm (env : SyncEnv)
    (vendor : Option String → VendorOutcome) (tenant_id : String)
    (crm_system : CRMSystem) (payload : CRMDealPayload) :
    Except PyErr (CRMSyncResult × SyncEnv) :=
  match CRMDealPayload.strAttr payload "leadlane_opportunity_id" with
  | none =>
    .error (.attributeError
      "CRMDealPayload object has no attribute leadlane_opportunity_id")
  | some leadlane_id =>
    if pyFalsyStr leadlane_id then
      .ok (simpleErrorResult crm_system "opportunity" none
        "missing_leadlane_id"
        "CRMDealPayload.leadlane_opportunity_id ist erforderlich.", env)
    else
      let lid := leadlane_id.getD ""
      match ensureCredentials env.creds tenant_id crm_system "opportunity"
          leadlane_id with
      | .error e => .error e
      | .ok (some errRes) => .ok (errRes, env)
      | .ok none =>
        let existing_link :=
          getLinkByLeadlaneId env.opportunityLinks tenant_id crm_system lid
        let existing_crm_id : Option String :=
          existing_link.map (fun l => l.crm_id)
        match vendor existing_crm_id with
        | .raises exc =>
          .ok (simpleErrorResult crm_system "opportunity" leadlane_id
            "crm_client_error"
            "Unerwarteter Fehler beim Upsert der Opportunity im CRM."
            [("exception", exc)], env)
        | .returns result =>
          let newLinks := handleLinkUpdate env.opportunityLinks tenant_id
            crm_system lid result
          .ok (result, { env with opportunityLinks := newLinks })

/-- CRMSyncService.sync_activity_to_crm.  Its first statement reads
payload.leadlane_activity_id — an attribute CRMActivityPayload does not
define — so pydantic raises AttributeError before anything else happens.
The rest mirrors the other methods, with the link handling guarded on the
presence of the optional activity link repository. -/
def sync_activity_to_crm (env : SyncEnv)
    (vendor : Option String → VendorOutcome) (tenant_id : String)
    (crm_system : CRMSystem) (payload : CRMActivityPayload) :
    Except PyErr (CRMSyncResult × SyncEnv) :=
  match CRMActivityPayload.strAttr payload "leadlane_activity_id" with
  | none =>
    .error (.attributeError
      "CRMActivityPayload object has no attribute leadlane_activity_id")
  | some leadlane_id =>
    if pyFalsyStr leadlane_id then
      .ok (simpleErrorResult crm_system "activity" none "missing_leadlane_id"
        "CRMActivityPayload.leadlane_activity_id ist erforderlich.", env)
    else
      let lid := leadlane_id.getD ""
      match ensureCredentials env.creds tenant_id crm_system "activity"
          leadlane_id with
      | .error e => .error e
      | .ok (some errRes) => .ok (errRes, env)
      | .ok none =>
        let existing_link :=
          match env.activityLinks with
          | none => none
          | some als => getLinkByLeadlaneId als tenant_id crm_system lid
        let existing_crm_id : Option String :=
          existing_link.map (fun l => l.crm_id)
        match vendor existing_crm_id with
        | .raises exc =>
          .ok (simpleErrorResult crm_system "activity" leadlane_id
            "crm_client_error"
            "Unerwarteter Fehler beim Upsert der Aktivitaet im CRM."
            [("exception", exc)], env)
        | .returns result =>
          match env.activityLinks with
          | none => .ok (result, env)
          | some als =>
            let newLinks := handleLinkUpdate als tenant_id crm_system lid
              result
            .ok (result, { env with activityLinks := some newLinks })

/-- The fan-out of the Sync Listener: one Sync Service call per connected
system, collecting (system, result) pairs.  asyncio.gather is modelled as
sequential completion threading the store state; no verified claim
depends on the interleaving. -/
def syncAll (call : SyncEnv → CRMSystem → Except PyErr (CRMSyncResult × SyncEnv)) :
    List CRMSystem → SyncEnv →
    Except PyErr (List (CRMSystem × CRMSyncResult) × SyncEnv)
  | [], env => .ok ([], env)
  | s :: rest, env =>
    match call env s with
    | .error e => .error e
    | .ok (r, env2) =>
      match syncAll call rest env2 with
      | .error e => .error e
      | .ok (rs, env3) => .ok ((s, r) :: rs, env3)

/-- crm_sync_listener.py, CRMSyncListener.on_company_changed.  In the
no-connected-systems branch the logging call evaluates
payload.leadlane_company_id — an attribute CRMCompanyPayload does not
define (its field is leadlane_sub_company_id) — raising AttributeError
before the empty result map can be returned. -/
def on_company_changed (env : SyncEnv)
    (vendorOf : CRMSystem → Option String → VendorOutcome)
    (tenant_id : String) (payload : CRMCompanyPayload) :
    Except PyErr (List (CRMSystem × CRMSyncResult) × SyncEnv) :=
  let systems := listConnectedSystems env.creds tenant_id
  if systems.isEmpty then
    match CRMCompanyPayload.strAttr payload "leadlane_company_id" with
    | none =>
      .error (.attributeError
        "CRMCompanyPayload object has no attribute leadlane_company_id")
    | some _ => .ok ([], env)
  else
    syncAll (fun e s => sync_company_to_crm e (vendorOf s) tenant_id s payload)
      systems env

/-- crm_sync_listener.py, CRMSyncListener.on_contact_changed.  Its logging
call reads payload.leadlane_contact_id, which exists, so the empty branch
returns the empty result map. -/
def on_contact_changed (env : SyncEnv)
    (vendorOf : CRMSystem → Option String → VendorOutcome)
    (tenant_id : String) (payload : CRMContactPayload) :
    Except PyErr (List (CRMSystem × CRMSyncResult) × SyncEnv) :=
  let systems := listConnectedSystems env.creds tenant_id
  if systems.isEmpty then
    .ok ([], env)
  else
    syncAll (fun e s => sync_contact_to_crm e (vendorOf s) tenant_id s payload)
      systems env

/-- crm_sync_listener.py, CRMSyncListener.on_deal_changed.  The logging
call in the empty branch evaluates payload.leadlane_opportunity_id — an
attribute CRMDealPayload does not define — raising AttributeError. -/
def on_deal_changed (env : SyncEnv)
    (vendorOf : CRMSystem → Option String → VendorOutcome)
    (tenant_id : String) (payload : CRMDealPayload) :
    Except PyErr (List (CRMSystem × CRMSyncResult) × SyncEnv) :=
  let systems := listConnectedSystems env.creds tenant_id
  if systems.isEmpty then
    match CRMDealPayload.strAttr payload "leadlane_opportunity_id" with
    | none =>
      .error (.attributeError
        "CRMDealPayload object has no attribute leadlane_opportunity_id")
    | some _ => .ok ([], env)
  else
    syncAll (fun e s =>
        sync_opportunity_to_crm e (vendorOf s) tenant_id s payload)
      systems env

/-- crm_sync_listener.py, CRMSyncListener.on_activity_created.  The
logging call in the empty branch evaluates payload.leadlane_activity_id —
an attribute CRMActivityPayload does not define — raising
AttributeError. -/
def on_activity_created (env : SyncEnv)
    (vendorOf : CRMSystem → Option String → VendorOutcome)
    (tenant_id : String) (payload : CRMActivityPayload) :
    Except PyErr (List (CRMSystem × CRMSyncResult) × SyncEnv) :=
  let systems := listConnectedSystems env.creds tenant_id
  if systems.isEmpty then
    match CRMActivityPayload.strAttr payload "leadlane_activity_id" with
    | none =>
      .error (.attributeError
        "CRMActivityPayload object has no attribute leadlane_activity_id")
    | some _ => .ok ([], env)
  else
    syncAll (fun e s => sync_activity_to_crm e (vendorOf s) tenant_id s payload)
      systems env

/-- Claim C8: the sync methods for opportunity and activity never return
the missing_leadlane_id result — their first statement reads an attribute
their payload type does not define (leadlane_opportunity_id and
leadlane_activity_id), so every call raises AttributeError, for every
payload, before any validation, credentials lookup, vendor call or link
write.  The company and contact methods do behave as claimed: with the
internal ID missing they return the structured missing_leadlane_id
failure and leave the store untouched. -/
theorem claim_C8_missing_leadlane_id :
    (∀ (env : SyncEnv) (vendor : Option String → VendorOutcome)
      (tenant_id : String) (crm_system : CRMSystem)
      (payload : CRMDealPayload),
      sync_opportunity_to_crm env vendor tenant_id crm_system payload =
        .error (.attributeError
          "CRMDealPayload object has no attribute leadlane_opportunity_id")) ∧
    (∀ (env : SyncEnv) (vendor : Option String → VendorOutcome)
      (tenant_id : String) (crm_system : CRMSystem)
      (payload : CRMActivityPayload),
      sync_activity_to_crm env vendor tenant_id crm_system payload =
        .error (.attributeError
          "CRMActivityPayload object has no attribute leadlane_activity_id")) ∧
    (∀ (env : SyncEnv) (vendor : Option String → VendorOutcome)
      (tenant_id : String) (crm_system : CRMSystem) (companyName : String),
      sync_company_to_crm env vendor tenant_id crm_system
          { name := companyName } =
        .ok (simpleErrorResult crm_system "company" none "missing_leadlane_id"
          "CRMCompanyPayload.leadlane_sub_company_id ist erforderlich.",
          env)) ∧
    (∀ (env : SyncEnv) (vendor : Option String → VendorOutcome)
      (tenant_id : String) (crm_system : CRMSystem),
      sync_contact_to_crm env vendor tenant_id crm_system {} =
        .ok (simpleErrorResult crm_system "contact" none "missing_leadlane_id"
          "CRMContactPayload.leadlane_contact_id ist erforderlich.", env)) := by
  refine ⟨?_, ?_, ?_, ?_⟩
  · intro env vendor tenant_id crm_system payload
    rfl
  · intro env vendor tenant_id crm_system payload
    rfl
  · intro env vendor tenant_id crm_system companyName
    rfl
  · intro env vendor tenant_id crm_system
    rfl

/-- Claim C9: for a tenant with no connected CRM systems, the company,
deal and activity change handlers raise AttributeError (their logging
statement reads an attribute the payload type does not define) instead of
returning the empty result map; only the contact handler returns the
empty map.  Evaluated at the empty credentials store. -/
theorem claim_C9_listener_no_connections :
    (∀ (vendorOf : CRMSystem → Option String → VendorOutcome)
      (tenant_id : String) (payload : CRMCompanyPayload),
      on_company_changed { creds := [] } vendorOf tenant_id payload =
        .error (.attributeError
          "CRMCompanyPayload object has no attribute leadlane_company_id")) ∧
    (∀ (vendorOf : CRMSystem → Option String → VendorOutcome)
      (tenant_id : String) (payload : CRMDealPayload),
      on_deal_changed { creds := [] } vendorOf tenant_id payload =
        .error (.attributeError
          "CRMDealPayload object has no attribute leadlane_opportunity_id")) ∧
    (∀ (vendorOf : CRMSystem → Option String → VendorOutcome)
      (tenant_id : String) (payload : CRMActivityPayload),
      on_activity_created { creds := [] } vendorOf tenant_id payload =
        .error (.attributeError
          "CRMActivityPayload object has no attribute leadlane_activity_id")) ∧
    (∀ (vendorOf : CRMSystem → Option String → VendorOutcome)
      (tenant_id : String) (payload : CRMContactPayload),
      on_contact_changed { creds := [] } vendorOf tenant_id payload =
        .ok ([], { creds := [] })) := by
  refine ⟨?_, ?_, ?_, ?_⟩ <;> intro vendorOf tenant_id payload <;> rfl

/-- Claim C1: for every Sync Service call that reaches the vendor-upsert
step (identifier present, credentials present and enabled): a raising
vendor call yields the crm_client_error failure result with the link
stores untouched; a successful vendor result with a non-empty CRM ID
upserts the link for (tenant, system, internal ID), overwriting any
existing row so the new CRM ID is stored; any other result leaves the
links untouched.  The company and contact methods are covered at the
method level; the opportunity and activity methods never reach the
vendor-upsert step (see their AttributeError conjuncts), and their
link-update step (_handle_link_update_for_opportunity and
_handle_link_update_for_activity share handleLinkUpdate) obeys the same
discipline, stated in the final conjunct. -/
theorem claim_C1_vendor_upsert_link_update (env : SyncEnv)
    (vendor : Option String → VendorOutcome) (tenant_id : String)
    (crm_system : CRMSystem) (conn : CRMConnectionInfo)
    (hconn : getCredentials env.creds tenant_id crm_system = some conn)
    (henabled : conn.is_enabled = true) :
    (∀ (payload : CRMCompanyPayload) lid,
      payload.leadlane_sub_company_id = some lid → ¬ lid = "" →
      (∀ exc, vendor ((getLinkByLeadlaneId env.accountLinks tenant_id
          crm_system lid).map (fun l => l.crm_id)) = .raises exc →
        sync_company_to_crm env vendor tenant_id crm_system payload =
          .ok (simpleErrorResult crm_system "company" (some lid)
            "crm_client_error"
            "Unerwarteter Fehler beim Upsert der Company im CRM."
            [("exception", exc)], env)) ∧
      (∀ r cid, vendor ((getLinkByLeadlaneId env.accountLinks tenant_id
          crm_system lid).map (fun l => l.crm_id)) = .returns r →
        r.success = true → r.crm_id = some cid → ¬ cid = "" →
        sync_company_to_crm env vendor tenant_id crm_system payload =
          .ok (r, { env with
            accountLinks := upsertLink env.accountLinks tenant_id crm_system lid cid }) ∧
        getLinkByLeadlaneId (upsertLink env.accountLinks tenant_id crm_system
            lid cid) tenant_id crm_system lid =
          some ⟨tenant_id, crm_system, lid, cid⟩) ∧
      (∀ r, vendor ((getLinkByLeadlaneId env.accountLinks tenant_id
          crm_system lid).map (fun l => l.crm_id)) = .returns r →
        (r.success = false ∨ r.crm_id = none ∨ r.crm_id = some "") →
        sync_company_to_crm env vendor tenant_id crm_system payload =
          .ok (r, env))) ∧
    (∀ (payload : CRMContactPayload) lid,
      payload.leadlane_contact_id = some lid → ¬ lid = "" →
      (∀ exc, vendor ((getLinkByLeadlaneId env.contactLinks tenant_id
          crm_system lid).map (fun l => l.crm_id)) = .raises exc →
        sync_contact_to_crm env vendor tenant_id crm_system payload =
          .ok (simpleErrorResult crm_system "contact" (some lid)
            "crm_client_error"
            "Unerwarteter Fehler beim Upsert des Kontakts im CRM."
            [("exception", exc)], env)) ∧
      (∀ r cid, vendor ((getLinkByLeadlaneId env.contactLinks tenant_id
          crm_system lid).map (fun l => l.crm_id)) = .returns r →
        r.success = true → r.crm_id = some cid → ¬ cid = "" →
        sync_contact_to_crm env vendor tenant_id crm_system payload =
          .ok (r, { env with
            contactLinks := upsertLink env.contactLinks tenant_id crm_system lid cid }) ∧
        getLinkByLeadlaneId (upsertLink env.contactLinks tenant_id crm_system
            lid cid) tenant_id crm_system lid =
          some ⟨tenant_id, crm_system, lid, cid⟩) ∧
      (∀ r, vendor ((getLinkByLeadlaneId env.contactLinks tenant_id
          crm_system lid).map (fun l => l.crm_id)) = .returns r →
        (r.success = false ∨ r.crm_id = none ∨ r.crm_id = some "") →
        sync_contact_to_crm env vendor tenant_id crm_system payload =
          .ok (r, env))) ∧
    (∀ (payload : CRMDealPayload),
      sync_opportunity_to_crm env vendor tenant_id crm_system payload =
        .error (.attributeError
          "CRMDealPayload object has no attribute leadlane_opportunity_id")) ∧
    (∀ (payload : CRMActivityPayload),
      sync_activity_to_crm env vendor tenant_id crm_system payload =
        .error (.attributeError
          "CRMActivityPayload object has no attribute leadlane_activity_id")) ∧
    (∀ (links : List CRMLink) (lid : String) (r : CRMSyncResult),
      ((r.success = false ∨ r.crm_id = none ∨ r.crm_id = some "") →
        handleLinkUpdate links tenant_id crm_system lid r = links) ∧
      (∀ cid, r.success = true → r.crm_id = some cid → ¬ cid = "" →
        handleLinkUpdate links tenant_id crm_system lid r =
          upsertLink links tenant_id crm_system lid cid ∧
        getLinkByLeadlaneId (upsertLink links tenant_id crm_system lid cid)
          tenant_id crm_system lid = some ⟨tenant_id, crm_system, lid, cid⟩)) := by
  have hens : ∀ ot optid, ensureCredentials env.creds tenant_id crm_system
      ot optid = .ok none := by
    intro ot optid
    simp [ensureCredentials, hconn, henabled]
  refine ⟨?_, ?_, ?_, ?_, ?_⟩
  · intro payload lid hpl hne
    have hfal : pyFalsyStr (some lid) = false := by
      simp [pyFalsyStr, hne]
    refine ⟨?_, ?_, ?_⟩
    · intro exc hv
      simp only [sync_company_to_crm, hpl, hfal, Bool.false_eq_true,
        if_false, Option.getD_some, hens, hv]
    · intro r cid hv hs hcid hcne
      constructor
      · have hlu : handleLinkUpdate env.accountLinks tenant_id crm_system lid
            r = upsertLink env.accountLinks tenant_id crm_system lid cid := by
          simp [handleLinkUpdate, hs, hcid, pyFalsyStr, hcne]
        simp only [sync_company_to_crm, hpl, hfal, Bool.false_eq_true,
          if_false, Option.getD_some, hens, hv, hlu]
      · exact getLinkByLeadlaneId_upsertLink env.accountLinks tenant_id
          crm_system lid cid
    · intro r hv hfail
      have hlu : handleLinkUpdate env.accountLinks tenant_id crm_system lid
          r = env.accountLinks := by
        rcases hfail with h | h | h <;>
          simp [handleLinkUpdate, h, pyFalsyStr]
      simp only [sync_company_to_crm, hpl, hfal, Bool.false_eq_true,
        if_false, Option.getD_some, hens, hv, hlu]
  · intro payload lid hpl hne
    have hfal : pyFalsyStr (some lid) = false := by
      simp [pyFalsyStr, hne]
    refine ⟨?_, ?_, ?_⟩
    · intro exc hv
      simp only [sync_contact_to_crm, hpl, hfal, Bool.false_eq_true,
        if_false, Option.getD_some, hens, hv]
    · intro r cid hv hs hcid hcne
      constructor
      · have hlu : handleLinkUpdate env.contactLinks tenant_id crm_system lid
            r = upsertLink env.contactLinks tenant_id crm_system lid cid := by
          simp [handleLinkUpdate, hs, hcid, pyFalsyStr, hcne]
        simp only [sync_contact_to_crm, hpl, hfal, Bool.false_eq_true,
          if_false, Option.getD_some, hens, hv, hlu]
      · exact getLinkByLeadlaneId_upsertLink env.contactLinks tenant_id
          crm_system lid cid
    · intro r hv hfail
      have hlu : handleLinkUpdate env.contactLinks tenant_id crm_system lid
          r = env.contactLinks := by
        rcases hfail with h | h | h <;>
          simp [handleLinkUpdate, h, pyFalsyStr]
      simp only [sync_contact_to_crm, hpl, hfal, Bool.false_eq_true,
        if_false, Option.getD_some, hens, hv, hlu]
  · intro payload
    rfl
  · intro payload
    rfl
  · intro links lid r
    constructor
    · intro hfail
      rcases hfail with h | h | h <;>
        simp [handleLinkUpdate, h, pyFalsyStr]
    · intro cid hs hcid hcne
      constructor
      · simp [handleLinkUpdate, hs, hcid, pyFalsyStr, hcne]
      · exact getLinkByLeadlaneId_upsertLink links tenant_id crm_system lid cid

/-- A sync environment with an enabled HubSpot connection for tenant t1
and a pre-existing account link L1 to CRM ID "111". -/
def envC1 : SyncEnv :=
  { creds := [connFresh], accountLinks := [⟨"t1", .hubspot, "L1", "111"⟩] }

/-- A successful vendor result carrying the (new) CRM ID "222". -/
def okRes222 : CRMSyncResult :=
  { success := true, crm_system := .hubspot, crm_object_type := "company",
    crm_id := some "222", leadlane_id := some "L1" }

/-- A failed vendor result without a CRM ID. -/
def failRes : CRMSyncResult :=
  { success := false, crm_system := .hubspot, crm_object_type := "company",
    crm_id := none, leadlane_id := some "L1" }

/-- The company payload of the C1 witness. -/
def payloadC1 : CRMCompanyPayload :=
  { leadlane_sub_company_id := some "L1", name := "Acme" }

/-- The contact payload of the C1 witness. -/
def contactC1 : CRMContactPayload := { leadlane_contact_id := some "K1" }

/-- Witness for claim C1: a raising vendor call yields crm_client_error
and preserves the stored link "111"; a successful call with CRM ID "222"
overwrites the link row so "222" is stored afterwards; a failed result
leaves the store untouched; the opportunity and activity methods raise
before the vendor step; the shared link-update step skips failures and
upserts successes. -/
theorem claim_C1_vendor_upsert_link_update_witness :
    (sync_company_to_crm envC1 (fun _ => .raises "boom") "t1" .hubspot
        payloadC1 =
      .ok (simpleErrorResult .hubspot "company" (some "L1") "crm_client_error"
        "Unerwarteter Fehler beim Upsert der Company im CRM."
        [("exception", "boom")], envC1)) ∧
    (sync_company_to_crm envC1 (fun _ => .returns okRes222) "t1" .hubspot
        payloadC1 =
      .ok (okRes222, { envC1 with
        accountLinks := upsertLink envC1.accountLinks "t1" .hubspot "L1" "222" })) ∧
    (getLinkByLeadlaneId (upsertLink envC1.accountLinks "t1" .hubspot "L1"
        "222") "t1" .hubspot "L1" = some ⟨"t1", .hubspot, "L1", "222"⟩) ∧
    (sync_company_to_crm envC1 (fun _ => .returns failRes) "t1" .hubspot
        payloadC1 = .ok (failRes, envC1)) ∧
    (sync_contact_to_crm envC1 (fun _ => .raises "boom") "t1" .hubspot
        contactC1 =
      .ok (simpleErrorResult .hubspot "contact" (some "K1") "crm_client_error"
        "Unerwarteter Fehler beim Upsert des Kontakts im CRM."
        [("exception", "boom")], envC1)) ∧
    (sync_opportunity_to_crm envC1 (fun _ => .raises "boom") "t1" .hubspot
        {} =
      .error (.attributeError
        "CRMDealPayload object has no attribute leadlane_opportunity_id")) ∧
    (sync_activity_to_crm envC1 (fun _ => .raises "boom") "t1" .hubspot
        { activity_type := .call } =
      .error (.attributeError
        "CRMActivityPayload object has no attribute leadlane_activity_id")) ∧
    (handleLinkUpdate [] "t1" .hubspot "L1" failRes = []) ∧
    (handleLinkUpdate [] "t1" .hubspot "L1" okRes222 =
      upsertLink [] "t1" .hubspot "L1" "222") := by
  refine ⟨?_, ?_, ?_, ?_, ?_, ?_, ?_, ?_, ?_⟩
  · exact ((claim_C1_vendor_upsert_link_update envC1 (fun _ => .raises "boom")
      "t1" .hubspot connFresh (by decide) (by decide)).1 payloadC1 "L1" rfl
      (by decide)).1 "boom" rfl
  · exact (((claim_C1_vendor_upsert_link_update envC1
      (fun _ => .returns okRes222) "t1" .hubspot connFresh (by decide)
      (by decide)).1 payloadC1 "L1" rfl (by decide)).2.1 okRes222 "222" rfl
      (by decide) (by decide) (by decide)).1
  · exact (((claim_C1_vendor_upsert_link_update envC1
      (fun _ => .returns okRes222) "t1" .hubspot connFresh (by decide)
      (by decide)).1 payloadC1 "L1" rfl (by decide)).2.1 okRes222 "222" rfl
      (by decide) (by decide) (by decide)).2
  · exact ((claim_C1_vendor_upsert_link_update envC1
      (fun _ => .returns failRes) "t1" .hubspot connFresh (by decide)
      (by decide)).1 payloadC1 "L1" rfl (by decide)).2.2 failRes rfl
      (Or.inl (by decide))
  · exact ((claim_C1_vendor_upsert_link_update envC1 (fun _ => .raises "boom")
      "t1" .hubspot connFresh (by decide) (by decide)).2.1 contactC1 "K1" rfl
      (by decide)).1 "boom" rfl
  · exact (claim_C1_vendor_upsert_link_update envC1 (fun _ => .raises "boom")
      "t1" .hubspot connFresh (by decide) (by decide)).2.2.1 {}
  · exact (claim_C1_vendor_upsert_link_update envC1 (fun _ => .raises "boom")
      "t1" .hubspot connFresh (by decide) (by decide)).2.2.2.1
      { activity_type := .call }
  · exact ((claim_C1_vendor_upsert_link_update envC1 (fun _ => .raises "boom")
      "t1" .hubspot connFresh (by decide) (by decide)).2.2.2.2 [] "L1"
      failRes).1 (Or.inl (by decide))
  · exact (((claim_C1_vendor_upsert_link_update envC1 (fun _ => .raises "boom")
      "t1" .hubspot connFresh (by decide) (by decide)).2.2.2.2 [] "L1"
      okRes222).2 "222" (by decide) (by decide) (by decide)).1

/-- One row of public.crm_webhook_events.  The processed_at column (set to
now() together with the status) carries no information any embedded code
reads and is omitted. -/
structure LedgerRow where
  crm_system : String
  event_id : String
  occurred_at : Option Int := none
  status : Option String := none
  last_error : Option String := none
deriving DecidableEq, Repr

/-- webhook_idempotency_repository.py, try_mark_received: INSERT ... ON
CONFLICT (crm_system, event_id) DO NOTHING RETURNING ...; the Bool is
true when the row was new. -/
def tryMarkReceived (ledger : List LedgerRow) (crm_system event_id : String)
    (occurred_at : Option Int) : Bool × List LedgerRow :=
  if ledger.any (fun r => decide (r.crm_system = crm_system ∧
      r.event_id = event_id)) then
    (false, ledger)
  else
    (true, ledger ++ [⟨crm_system, event_id, occurred_at, none, none⟩])

/-- webhook_idempotency_repository.py, mark_processed: UPDATE ... SET
status, last_error WHERE crm_system = :cs AND event_id = :eid. -/
def markProcessed (ledger : List LedgerRow) (crm_system event_id : String)
    (status : String) (last_error : Option String := none) : List LedgerRow :=
  ledger.map (fun r =>
    if r.crm_system = crm_system ∧ r.event_id = event_id then
      { r with status := some status, last_error := last_error }
    else r)

/-- The status column of the ledger row of an event (outer none: no row). -/
def ledgerStatus (ledger : List LedgerRow) (crm_system event_id : String) :
    Option (Option String) :=
  (ledger.find? (fun r => decide (r.crm_system = crm_system ∧
    r.event_id = event_id))).map (fun r => r.status)

/-- The domain Company dataclass as the webhook processor uses it: its
identity and ordering columns (tenant_id, leadlane_sub_company_id,
last_modified_time) as named fields and the remaining attributes as the
attribute dict the mapping engine patches. -/
structure Company where
  tenant_id : String
  leadlane_sub_company_id : String
  last_modified_time : Int
  fields : Dict String PyVal := []
deriving DecidableEq, Repr

/-- CompanyRepository.get_by_id. -/
def getCompanyById (companies : List Company)
    (tenant_id leadlane_sub_company_id : String) : Option Company :=
  companies.find? (fun c => decide (c.tenant_id = tenant_id ∧
    c.leadlane_sub_company_id = leadlane_sub_company_id))

/-- CompanyRepository.save: keyed write-back of the company row. -/
def saveCompany (companies : List Company) (c : Company) : List Company :=
  if companies.any (fun x => decide (x.tenant_id = c.tenant_id ∧
      x.leadlane_sub_company_id = c.leadlane_sub_company_id)) then
    companies.map (fun x =>
      if x.tenant_id = c.tenant_id ∧
          x.leadlane_sub_company_id = c.leadlane_sub_company_id then c
      else x)
  else companies ++ [c]

/-- One HubSpot webhook event as the processor reads it.  Timestamps are
numeric (milliseconds); the ISO-8601-string fallback of the parser is not
modelled (no verified claim exercises it). -/
structure WebhookEvent where
  eventId : Option String := none
  event_id : Option String := none
  id : Option String := none
  occurredAt : Option Int := none
  occurred_at : Option Int := none
  objectId : Option String := none
  object_id : Option String := none
  companyId : Option String := none
  properties : Option (Dict String PyVal) := none
deriving DecidableEq, Repr

/-- Python `a or b` on optional strings: the empty string is falsy. -/
def pyOrStr (a b : Option String) : Option String :=
  match a with
  | some s => if s = "" then b else some s
  | none => b

/-- Python str.strip, applied on the character list (String.trim itself
is defined through functions the kernel cannot unfold). -/
def pyStrip (s : String) : String :=
  ⟨((s.data.dropWhile Char.isWhitespace).reverse.dropWhile
    Char.isWhitespace).reverse⟩

/-- str(ev.get("eventId") or ev.get("event_id") or ev.get("id") or
"").strip() of the processor. -/
def eventIdOf (ev : WebhookEvent) : String :=
  pyStrip ((pyOrStr ev.eventId (pyOrStr ev.event_id ev.id)).getD "")

/-- str(ev.get("objectId") or ev.get("object_id") or ev.get("companyId")
or "").strip() of the processor. -/
def objectIdOf (ev : WebhookEvent) : String :=
  pyStrip ((pyOrStr ev.objectId (pyOrStr ev.object_id ev.companyId)).getD "")

/-- Python `a or b` on optional numbers: zero is falsy. -/
def pyOrInt (a b : Option Int) : Option Int :=
  match a with
  | some v => if v = 0 then b else some v
  | none => b

/-- The processor's occurred_at: ev.get("occurredAt") or
ev.get("occurred_at"), parsed when truthy, None otherwise
(datetime.utcfromtimestamp keeps the instant; times stay numeric). -/
def parseOccurred (ev : WebhookEvent) : Option Int :=
  match pyOrInt ev.occurredAt ev.occurred_at with
  | none => none
  | some v => if v = 0 then none else some v

/-- The database state the webhook processor reads and writes. -/
structure WebhookState where
  ledger : List LedgerRow := []
  links : List CRMLink := []
  companies : List Company := []
deriving DecidableEq, Repr

/-- A request-level failure of handle_events: an HTTPException with its
status code and detail, or a propagating Python exception (the processor
wraps no per-event work in try/except). -/
inductive WebhookErr where
  | http (code : Nat) (detail : String)
  | typeError
deriving DecidableEq, Repr

/-- The engine call of the processor: map_crm_to_udm with udm_cls=Company
and the loaded company as existing object, patching the company's
attribute dict (its identity columns are carried alongside). -/
def mapCrmToUdmCompany (db : MappingDB) (tenant_id : String)
    (props : Dict String PyVal) (c : Company) : Except Unit Company :=
  match mapCrmToUdm db (some tenant_id) .hubspot "company" props
      (some ⟨c.fields⟩) with
  | .ok o => .ok { c with fields := o.fields }
  | .error e => .error e

/-- The tail of the loop body of handle_events once the out-of-order gate
is passed: map the CRM properties over the company, save it, mark the
event processed.  An exception from the mapping (dataclasses.replace on
an unknown attribute) propagates. -/
def applyAndPersist (tenant_id : String) (db : MappingDB)
    (st1 : WebhookState) (event_id : String) (ev : WebhookEvent)
    (company : Company) : Except (WebhookErr × WebhookState) WebhookState :=
  let props := ev.properties.getD []
  match mapCrmToUdmCompany db tenant_id props company with
  | .error _ => .error (.typeError, st1)
  | .ok updated =>
    let newCompanies := saveCompany st1.companies updated
    let newLedger := markProcessed st1.ledger "hubspot" event_id "processed"
    .ok { st1 with companies := newCompanies, ledger := newLedger }

/-- One iteration of the loop of
HubSpotCompanyWebhookProcessor.handle_events.  On an error the state at
the moment of the raise is carried along, since the database writes made
so far stay committed. -/
def processEvent (tenant_id : String) (db : MappingDB) (st : WebhookState)
    (ev : WebhookEvent) : Except (WebhookErr × WebhookState) WebhookState :=
  let event_id := eventIdOf ev
  if event_id = "" then
    .error (.http 400 "Missing event_id in HubSpot webhook payload", st)
  else
    let occurred := parseOccurred ev
    let pair := tryMarkReceived st.ledger "hubspot" event_id occurred
    let st1 := { st with ledger := pair.2 }
    if !pair.1 then .ok st1
    else
      let object_id := objectIdOf ev
      let mark := fun s => markProcessed st1.ledger "hubspot" event_id s
      if object_id = "" then
        .ok { st1 with ledger := mark "skipped_no_object_id" }
      else
        match getLinkByCrmId st1.links tenant_id .hubspot object_id with
        | none =>
          .ok { st1 with ledger := mark "skipped_no_link" }
        | some link =>
          match getCompanyById st1.companies tenant_id link.leadlane_id with
          | none =>
            .ok { st1 with ledger := mark "skipped_no_company" }
          | some company =>
            match occurred with
            | some t =>
              if t ≤ company.last_modified_time then
                .ok { st1 with ledger := mark "skipped_out_of_order" }
              else applyAndPersist tenant_id db st1 event_id ev company
            | none => applyAndPersist tenant_id db st1 event_id ev company

/-- HubSpotCompanyWebhookProcessor.handle_events: a plain sequential loop
with no per-event error handling — the first raise aborts the batch. -/
def handleEvents (tenant_id : String) (db : MappingDB) (st : WebhookState) :
    List WebhookEvent → Except (WebhookErr × WebhookState) WebhookState
  | [] => .ok st
  | ev :: rest =>
    match processEvent tenant_id db st ev with
    | .error e => .error e
    | .ok st2 => handleEvents tenant_id db st2 rest

/-- Marking an event processed right after its row was appended to a
ledger that did not contain it sets exactly that row's status. -/
theorem ledgerStatus_markProcessed_append
    (ledger : List LedgerRow) (cs eid : String) (occ : Option Int)
    (stat : String)
    (hno : ledger.any (fun r => decide (r.crm_system = cs ∧
      r.event_id = eid)) = false) :
    ledgerStatus (markProcessed (ledger ++ [⟨cs, eid, occ, none, none⟩])
      cs eid stat) cs eid = some (some stat) := by
  induction ledger with
  | nil =>
    simp [markProcessed, ledgerStatus]
  | cons r rest ih =>
    simp only [List.any_cons, Bool.or_eq_false_iff] at hno
    obtain ⟨h1, h2⟩ := hno
    have h1' : ¬(r.crm_system = cs ∧ r.event_id = eid) := by
      simpa using h1
    have hmap : markProcessed ((r :: rest) ++ [⟨cs, eid, occ, none, none⟩])
        cs eid stat =
        r :: markProcessed (rest ++ [⟨cs, eid, occ, none, none⟩]) cs eid
          stat := by
      simp only [markProcessed, List.cons_append, List.map_cons, if_neg h1']
    rw [hmap]
    have hfind := findCons_neg
      (fun x : LedgerRow => decide (x.crm_system = cs ∧ x.event_id = eid)) r
      (markProcessed (rest ++ [⟨cs, eid, occ, none, none⟩]) cs eid stat) h1
    simp only [ledgerStatus, hfind]
    exact ih h2

/-- C3 (amended): an inbound webhook event carrying a truthy (non-zero)
occurred-at timestamp - parseOccurred ev = some t - that resolves
through event ID, object ID, link and loaded company to an internal
entity, with occurred_at at or before the entity's last_modified_time,
mutates neither companies nor links and gets its ledger row marked
skipped_out_of_order.  The truthiness proviso is necessary: an event
carrying occurredAt = 0 is treated as timestamp-less by the or-chain and
bypasses the gate (see the counterexample). -/
theorem claim_C3_out_of_order
    (tenant_id : String) (db : MappingDB) (st : WebhookState)
    (ev : WebhookEvent) (link : CRMLink) (company : Company) (t : Int)
    (hid : eventIdOf ev ≠ "")
    (hnew : st.ledger.any (fun r => decide (r.crm_system = "hubspot" ∧
      r.event_id = eventIdOf ev)) = false)
    (hobj : objectIdOf ev ≠ "")
    (hlink : getLinkByCrmId st.links tenant_id .hubspot (objectIdOf ev) =
      some link)
    (hcomp : getCompanyById st.companies tenant_id link.leadlane_id =
      some company)
    (hocc : parseOccurred ev = some t)
    (hle : t ≤ company.last_modified_time) :
    ∃ st2, processEvent tenant_id db st ev = .ok st2 ∧
      st2.companies = st.companies ∧ st2.links = st.links ∧
      ledgerStatus st2.ledger "hubspot" (eventIdOf ev) =
        some (some "skipped_out_of_order") := by
  refine ⟨⟨markProcessed
      (st.ledger ++ [⟨"hubspot", eventIdOf ev, parseOccurred ev, none, none⟩])
      "hubspot" (eventIdOf ev) "skipped_out_of_order",
      st.links, st.companies⟩, ?_, rfl, rfl,
    ledgerStatus_markProcessed_append st.ledger "hubspot" (eventIdOf ev)
      (parseOccurred ev) "skipped_out_of_order" hnew⟩
  simp only [processEvent, tryMarkReceived, hnew, Bool.false_eq_true,
    if_false, if_neg hid, if_neg hobj, hlink, hcomp, hocc, if_pos hle,
    Bool.not_true]

def wLink3 : CRMLink := ⟨"t1", .hubspot, "L1", "H1"⟩

def wCompany3 : Company := ⟨"t1", "L1", 100, []⟩

def wSt3 : WebhookState :=
  { ledger := [], links := [wLink3], companies := [wCompany3] }

def wEv3 : WebhookEvent :=
  { eventId := some "e3", occurredAt := some 50, objectId := some "H1" }

/-- A concrete out-of-order event (occurred 50 ms, company modified at
100 ms) is skipped without mutating anything. -/
theorem claim_C3_out_of_order_witness :
    eventIdOf wEv3 ≠ "" ∧ parseOccurred wEv3 = some 50 ∧
    (50 : Int) ≤ wCompany3.last_modified_time ∧
    (∃ st2, processEvent "t1" [] wSt3 wEv3 = .ok st2 ∧
      st2.companies = wSt3.companies ∧ st2.links = wSt3.links ∧
      ledgerStatus st2.ledger "hubspot" (eventIdOf wEv3) =
        some (some "skipped_out_of_order")) :=
  ⟨by decide, by decide, by decide,
    claim_C3_out_of_order "t1" [] wSt3 wEv3 wLink3 wCompany3 50
      (by decide) (by decide) (by decide) (by decide) (by decide)
      (by decide) (by decide)⟩

/-- C10: an event with an event ID and an object ID that resolves through
the link repository to an existing company, but with no occurred-at field
(parseOccurred = none), bypasses the out-of-order check entirely: the
mapped properties are applied and the company is saved unconditionally -
company.last_modified_time is arbitrary and unconstrained - and the
event is marked processed. -/
theorem claim_C10_no_occurred_at
    (tenant_id : String) (db : MappingDB) (st : WebhookState)
    (ev : WebhookEvent) (link : CRMLink) (company updated : Company)
    (hid : eventIdOf ev ≠ "")
    (hnew : st.ledger.any (fun r => decide (r.crm_system = "hubspot" ∧
      r.event_id = eventIdOf ev)) = false)
    (hobj : objectIdOf ev ≠ "")
    (hlink : getLinkByCrmId st.links tenant_id .hubspot (objectIdOf ev) =
      some link)
    (hcomp : getCompanyById st.companies tenant_id link.leadlane_id =
      some company)
    (hocc : parseOccurred ev = none)
    (hmap : mapCrmToUdmCompany db tenant_id (ev.properties.getD [])
      company = .ok updated) :
    ∃ st2, processEvent tenant_id db st ev = .ok st2 ∧
      st2.companies = saveCompany st.companies updated ∧
      st2.links = st.links ∧
      ledgerStatus st2.ledger "hubspot" (eventIdOf ev) =
        some (some "processed") := by
  refine ⟨⟨markProcessed
      (st.ledger ++ [⟨"hubspot", eventIdOf ev, parseOccurred ev, none, none⟩])
      "hubspot" (eventIdOf ev) "processed",
      st.links, saveCompany st.companies updated⟩, ?_, rfl, rfl,
    ledgerStatus_markProcessed_append st.ledger "hubspot" (eventIdOf ev)
      (parseOccurred ev) "processed" hnew⟩
  simp only [processEvent, tryMarkReceived, hnew, Bool.false_eq_true,
    if_false, if_neg hid, if_neg hobj, hlink, hcomp, hocc, Bool.not_true,
    applyAndPersist, hmap]

def wLink10 : CRMLink := ⟨"t1", .hubspot, "L1", "H1"⟩

def wCompany10 : Company :=
  ⟨"t1", "L1", 999999, [("company_name", some (Value.s "Old"))]⟩

def wSt10 : WebhookState :=
  { ledger := [], links := [wLink10], companies := [wCompany10] }

def wEv10 : WebhookEvent :=
  { eventId := some "e10", objectId := some "H1",
    properties := some [("name", some (Value.s "New"))] }

def wUpdated10 : Company :=
  ⟨"t1", "L1", 999999, [("company_name", some (Value.s "New"))]⟩

/-- A concrete event with no occurred-at field patches and saves a
company whose last_modified_time (999999 ms) is far later than any
plausible event time, and is marked processed. -/
theorem claim_C10_no_occurred_at_witness :
    parseOccurred wEv10 = none ∧
    mapCrmToUdmCompany [] "t1" (wEv10.properties.getD []) wCompany10 =
      .ok wUpdated10 ∧
    (∃ st2, processEvent "t1" [] wSt10 wEv10 = .ok st2 ∧
      st2.companies = saveCompany wSt10.companies wUpdated10 ∧
      st2.links = wSt10.links ∧
      ledgerStatus st2.ledger "hubspot" (eventIdOf wEv10) =
        some (some "processed")) :=
  ⟨by decide, by decide,
    claim_C10_no_occurred_at "t1" [] wSt10 wEv10 wLink10 wCompany10
      wUpdated10 (by decide) (by decide) (by decide) (by decide)
      (by decide) (by decide) (by decide)⟩

def wEv7WithId : WebhookEvent := { eventId := some "e1" }

def wEv7NoId : WebhookEvent := {}

def wSt7 : WebhookState := {}

/-- C7: handle_events does NOT reject a batch containing an ID-less event
before side effects, and one event's failure DOES abort the rest of the
batch.  First conjunct: with the ID-less event second, the good event's
ledger row is written (and marked skipped_no_object_id) before the HTTP
400 is raised, so the rejection happens after side effects.  Second
conjunct: with the ID-less event first, the loop raises HTTP 400
immediately and the subsequent well-formed event is never processed (the
final state still has an empty ledger), because the loop wraps no
per-event work in try/except. -/
theorem claim_C7_batch_rejection :
    handleEvents "t1" [] wSt7 [wEv7WithId, wEv7NoId] =
      .error (.http 400 "Missing event_id in HubSpot webhook payload",
        { ledger :=
            [⟨"hubspot", "e1", none, some "skipped_no_object_id", none⟩],
          links := [], companies := [] }) ∧
    handleEvents "t1" [] wSt7 [wEv7NoId, wEv7WithId] =
      .error (.http 400 "Missing event_id in HubSpot webhook payload",
        wSt7) := by
  constructor
  · rfl
  · rfl

def wCompany3Zero : Company :=
  ⟨"t1", "L1", 100, [("company_name", some (Value.s "Old"))]⟩

def wSt3Zero : WebhookState :=
  { ledger := [], links := [wLink3], companies := [wCompany3Zero] }

def wEv3Zero : WebhookEvent :=
  { eventId := some "e0", occurredAt := some 0, objectId := some "H1",
    properties := some [("name", some (Value.s "New"))] }

/-- C3 counterexample against the original claim: the event wEv3Zero
carries an occurred-at timestamp (occurredAt = 0, i.e. the epoch) that
is at or before the resolved company's last_modified_time (100 ms), yet
the or-chain `ev.get("occurredAt") or ev.get("occurred_at")` followed by
`if occurred_raw:` treats the number 0 as absent, so the event bypasses
the out-of-order gate: the company IS mutated (company_name patched from
"Old" to "New" and saved) and the ledger row is marked processed, not
skipped_out_of_order. -/
theorem claim_C3_counterexample :
    (wEv3Zero.occurredAt = some 0 ∧
      (0 : Int) ≤ wCompany3Zero.last_modified_time) ∧
    processEvent "t1" [] wSt3Zero wEv3Zero =
      .ok ⟨[⟨"hubspot", "e0", none, some "processed", none⟩], [wLink3],
        [⟨"t1", "L1", 100, [("company_name", some (Value.s "New"))]⟩]⟩ := by
  refine ⟨⟨rfl, by decide⟩, ?_⟩
  rfl
